import Mathlib

set_option linter.unusedVariables false

/-!
Verification development for the peer-connection orchestration layer of an
edge camera gateway: the signaling message codec (`Signaling::MessageParser`),
the dynamic media-route/port allocator (`Pipeline::Impl`), the peer registry
(`WebRTCManager`), the per-peer negotiation state machine (`WebRTCPeer`) and
the transport reconnect supervisor (`Application`).

The C++ sources are shallowly embedded: JSON values (`nlohmann::json`) become
an inductive `Json` tree with objects kept sorted by key exactly as
`std::map` stores them; the wire-string layer (`nlohmann::json::dump` /
`nlohmann::json::parse` of the envelope) is modelled as the identity on JSON
trees, while the inner `nlohmann::json::parse` applied to SDP payload strings
is modelled by an executable `jsonParse`.  Stateful components become pure
functions on explicit state records; GStreamer calls that can fail are
modelled by explicit boolean outcome records.
-/

/-- JSON values as stored by `nlohmann::json`.  Object fields are kept sorted
by key, mirroring the `std::map` backing store of nlohmann objects (so plain
equality of `Json` values coincides with nlohmann object equality for values
built through `Json.objOf` / `jsonParse`).  Numbers are modelled as integers:
no number in the signaling protocol carries a fractional part. -/
inductive Json where
  | null : Json
  | bool (b : Bool) : Json
  | num (n : Int) : Json
  | str (s : String) : Json
  | arr (elems : List Json) : Json
  | obj (fields : List (String × Json)) : Json
deriving Repr, Inhabited

/-- Field lookup: `j[key]` read access on an object, `none` otherwise. -/
def Json.find : Json → String → Option Json
  | .obj fields, key => fields.lookup key
  | _, _ => none

/-- `nlohmann::json::contains` (always false on non-objects). -/
def Json.contains (j : Json) (key : String) : Bool :=
  (j.find key).isSome

/-- `is_object()`. -/
def Json.isObj : Json → Bool
  | .obj _ => true
  | _ => false

/-- `is_string()`. -/
def Json.isStr : Json → Bool
  | .str _ => true
  | _ => false

/-- `nlohmann::json::empty()`: true for `null` and for empty containers;
false for primitives (their nlohmann `size()` is 1, also for `""`). -/
def Json.isEmpty : Json → Bool
  | .null => true
  | .arr elems => elems.isEmpty
  | .obj fields => fields.isEmpty
  | _ => false

/-- `j.value(key, default)` for a string default: the default when the key is
missing, the stored string when it is a string, and `none` modelling the
`type_error` exception thrown when `j` is not an object or the stored value
is not a string (callers catch it and fail their parse). -/
def Json.valueStr (j : Json) (key dflt : String) : Option String :=
  match j with
  | .obj _ =>
    match j.find key with
    | none => some dflt
    | some (.str s) => some s
    | some _ => none
  | _ => none

/-- `j.value(key, default)` for an integer default, with the same exception
convention as `Json.valueStr`. -/
def Json.valueInt (j : Json) (key : String) (dflt : Int) : Option Int :=
  match j with
  | .obj _ =>
    match j.find key with
    | none => some dflt
    | some (.num n) => some n
    | some _ => none
  | _ => none

/-- Lexicographic order on character lists. -/
def charListLt : List Char → List Char → Bool
  | [], [] => false
  | [], _ :: _ => true
  | _ :: _, [] => false
  | a :: as, b :: bs =>
    if a < b then true
    else if b < a then false
    else charListLt as bs

/-- The `std::string` comparison ordering `std::map` keys, as an executable
lexicographic comparison. -/
def strLt (a b : String) : Bool :=
  charListLt a.data b.data

/-- Sorted insertion of a field, replacing an existing binding: the
`std::map::operator[]` write used by nlohmann objects. -/
def Json.insertField (key : String) (v : Json) : List (String × Json) → List (String × Json)
  | [] => [(key, v)]
  | (k, w) :: rest =>
    if strLt key k then (key, v) :: (k, w) :: rest
    else if key = k then (key, v) :: rest
    else (k, w) :: Json.insertField key v rest

/-- Build a JSON object from fields given in source order; the result is
sorted by key as nlohmann stores it. -/
def Json.objOf (fields : List (String × Json)) : Json :=
  .obj (fields.foldl (fun acc kv => Json.insertField kv.1 kv.2 acc) [])

/-- JSON whitespace. -/
def jsonWsChar (c : Char) : Bool :=
  c = ' ' || c = '\t' || c = '\n' || c = '\r'

/-- Skip leading JSON whitespace. -/
def skipJsonWs : List Char → List Char
  | [] => []
  | c :: rest => if jsonWsChar c then skipJsonWs rest else c :: rest

/-- Match an expected literal character sequence, returning the remainder. -/
def dropLead : List Char → List Char → Option (List Char)
  | [], cs => some cs
  | p :: ps, c :: cs => if c = p then dropLead ps cs else none
  | _ :: _, [] => none

/-- Longest leading run of decimal digits. -/
def takeDigits : List Char → List Char × List Char
  | [] => ([], [])
  | c :: rest =>
    if c.isDigit then
      let (ds, rem) := takeDigits rest
      (c :: ds, rem)
    else ([], c :: rest)

/-- Numeric value of a digit run. -/
def digitsToNat (ds : List Char) : Nat :=
  ds.foldl (fun acc c => 10 * acc + (c.toNat - 48)) 0

/-- Body of a JSON string literal after the opening quote: the decoded
characters and the remainder after the closing quote.  The standard
single-character escapes are decoded; `\u` escapes are not modelled (no
input in this development uses them). -/
def parseStrBody : List Char → Option (List Char × List Char)
  | [] => none
  | '"' :: rest => some ([], rest)
  | '\\' :: e :: rest =>
    let decoded : Option Char :=
      if e = '"' then some '"'
      else if e = '\\' then some '\\'
      else if e = '/' then some '/'
      else if e = 'n' then some '\n'
      else if e = 't' then some '\t'
      else if e = 'r' then some '\r'
      else none
    match decoded with
    | none => none
    | some c =>
      match parseStrBody rest with
      | some (s, rem) => some (c :: s, rem)
      | none => none
  | '\\' :: [] => none
  | c :: rest =>
    match parseStrBody rest with
    | some (s, rem) => some (c :: s, rem)
    | none => none

mutual

/-- Fuel-indexed recursive-descent JSON value parser modelling
`nlohmann::json::parse`; returns the parsed value and the remaining input. -/
def parseJsonVal : Nat → List Char → Option (Json × List Char)
  | 0, _ => none
  | fuel + 1, input =>
    match skipJsonWs input with
    | [] => none
    | c :: rest =>
      if c = '"' then
        match parseStrBody rest with
        | some (s, rem) => some (.str (String.mk s), rem)
        | none => none
      else if c = 'n' then
        match dropLead ['u', 'l', 'l'] rest with
        | some rem => some (.null, rem)
        | none => none
      else if c = 't' then
        match dropLead ['r', 'u', 'e'] rest with
        | some rem => some (.bool true, rem)
        | none => none
      else if c = 'f' then
        match dropLead ['a', 'l', 's', 'e'] rest with
        | some rem => some (.bool false, rem)
        | none => none
      else if c = '-' then
        match takeDigits rest with
        | ([], _) => none
        | (ds, rem) => some (.num (-(Int.ofNat (digitsToNat ds))), rem)
      else if c.isDigit then
        let (ds, rem) := takeDigits (c :: rest)
        some (.num (Int.ofNat (digitsToNat ds)), rem)
      else if c = '[' then
        match skipJsonWs rest with
        | ']' :: rem => some (.arr [], rem)
        | _ => parseJsonItems fuel rest []
      else if c = '\x7b' then
        match skipJsonWs rest with
        | '\x7d' :: rem => some (.obj [], rem)
        | _ => parseJsonFields fuel rest []
      else none

/-- Comma-separated array elements up to the closing bracket. -/
def parseJsonItems : Nat → List Char → List Json → Option (Json × List Char)
  | 0, _, _ => none
  | fuel + 1, input, acc =>
    match parseJsonVal fuel input with
    | none => none
    | some (v, rem) =>
      match skipJsonWs rem with
      | ',' :: rem2 => parseJsonItems fuel rem2 (acc ++ [v])
      | ']' :: rem2 => some (.arr (acc ++ [v]), rem2)
      | _ => none

/-- Comma-separated object members up to the closing brace, accumulated with
sorted insertion as nlohmann stores them. -/
def parseJsonFields : Nat → List Char → List (String × Json) → Option (Json × List Char)
  | 0, _, _ => none
  | fuel + 1, input, acc =>
    match skipJsonWs input with
    | '"' :: rest =>
      match parseStrBody rest with
      | none => none
      | some (k, rem) =>
        match skipJsonWs rem with
        | ':' :: rem2 =>
          match parseJsonVal fuel rem2 with
          | none => none
          | some (v, rem3) =>
            match skipJsonWs rem3 with
            | ',' :: rem4 => parseJsonFields fuel rem4 (Json.insertField (String.mk k) v acc)
            | '\x7d' :: rem4 => some (.obj (Json.insertField (String.mk k) v acc), rem4)
            | _ => none
        | _ => none
    | _ => none

end

/-- `nlohmann::json::parse` on a whole string: a single JSON document with
nothing but whitespace after it; `none` models a thrown `parse_error`.
Numbers are modelled as integers only (no fraction, exponent or
leading-zero check), so on texts exercising that part of the number
grammar this parser and nlohmann disagree; theorems that need "the text is
not JSON" therefore use a syntactic condition on which both parsers
reject — a leading `v`, which opens no JSON value in either grammar —
rather than `jsonParse = none` itself. -/
def jsonParse (s : String) : Option Json :=
  match parseJsonVal (s.length + 1) s.data with
  | some (v, rem) => if skipJsonWs rem = [] then some v else none
  | none => none

namespace Signaling

/-- `Signaling::RegisterMessage`. -/
structure RegisterMessage where
  peerType : String := "camera"
  cameraId : String
  firmwareVersion : String
  aiVersion : String
deriving Repr, DecidableEq, Inhabited

/-- `Signaling::CameraStatusMessage`. -/
structure CameraStatusMessage where
  recordStatus : String
  recordUsage : Int
  cpuTemp : Int
  gpuTemp : Int
  rgbSnapshot : String
  thermalSnapshot : String
deriving Repr, DecidableEq, Inhabited

/-- `Signaling::PeerJoinedMessage`. -/
structure PeerJoinedMessage where
  peerId : String
  source : String
deriving Repr, DecidableEq, Inhabited

/-- `Signaling::PeerLeftMessage`. -/
structure PeerLeftMessage where
  peerId : String
deriving Repr, DecidableEq, Inhabited

/-- `Signaling::OfferMessage`.  The implementation stores a JSON value in
`sdp` (`MessageHandler::sendOffer` assigns a JSON object to it and
`serialize` embeds it as-is), so it is modelled as `Json`. -/
structure OfferMessage where
  peerId : String
  sdp : Json
deriving Repr, Inhabited

/-- `Signaling::AnswerMessage`.  As with `OfferMessage`, `sdp` is a JSON
value in the implementation (`parseAnswer` assigns parsed JSON objects to
it and `MessageHandler::handleAnswer` inspects it with `is_object()`). -/
structure AnswerMessage where
  peerId : String
  sdp : Json
deriving Repr, Inhabited

/-- `Signaling::IceCandidateMessage`. -/
structure IceCandidateMessage where
  peerId : String
  candidate : String
  mlineIndex : Int
deriving Repr, DecidableEq, Inhabited

/-- `Signaling::CommandMessage`. -/
structure CommandMessage where
  peerId : String
  command : String
  parameters : Json
deriving Repr, Inhabited

/-- `Signaling::Message`: the closed variant of wire messages. -/
inductive Message where
  | register (m : RegisterMessage)
  | cameraStatus (m : CameraStatusMessage)
  | peerJoined (m : PeerJoinedMessage)
  | peerLeft (m : PeerLeftMessage)
  | offer (m : OfferMessage)
  | answer (m : AnswerMessage)
  | iceCandidate (m : IceCandidateMessage)
  | command (m : CommandMessage)
deriving Repr, Inhabited

/-- `Signaling::MessageParser::serialize`, at the JSON-tree level (the final
`j.dump()` / the wire text is modelled as the identity on trees).  Each
variant maps to its envelope exactly as the visitor in the source; the
catch-all visitor branch (action `"unknown"`) is unreachable because the
variant is closed and every alternative is handled. -/
def MessageParser.serialize : Message → Json
  | .register m =>
    Json.objOf [("peerType", .str m.peerType), ("action", .str "register"),
      ("message", Json.objOf [("name", .str m.cameraId),
        ("fw_version", .str m.firmwareVersion), ("ai_version", .str m.aiVersion)])]
  | .cameraStatus m =>
    Json.objOf [("peerType", .str "camera"), ("action", .str "camstatus"),
      ("message", Json.objOf [("rec_status", .str m.recordStatus),
        ("rec_usage", .num m.recordUsage), ("cpu_temp", .num m.cpuTemp),
        ("gpu_temp", .num m.gpuTemp), ("rgb_snapshot", .str m.rgbSnapshot),
        ("thermal_snapshot", .str m.thermalSnapshot)])]
  | .offer m =>
    Json.objOf [("peerType", .str "camera"), ("action", .str "offer"),
      ("message", Json.objOf [("peer_id", .str m.peerId), ("sdp", m.sdp)])]
  | .iceCandidate m =>
    Json.objOf [("peerType", .str "camera"), ("action", .str "candidate"),
      ("message", Json.objOf [("peer_id", .str m.peerId),
        ("ice", Json.objOf [("candidate", .str m.candidate),
          ("sdpMLineIndex", .num m.mlineIndex)])])]
  | .peerJoined m =>
    Json.objOf [("peerType", .str "client"), ("action", .str "peer_joined"),
      ("message", Json.objOf [("peer_id", .str m.peerId), ("source", .str m.source)])]
  | .peerLeft m =>
    Json.objOf [("peerType", .str "client"), ("action", .str "peer_left"),
      ("message", Json.objOf [("peer_id", .str m.peerId)])]
  | .answer m =>
    Json.objOf [("peerType", .str "client"), ("action", .str "answer"),
      ("message", Json.objOf [("peer_id", .str m.peerId), ("sdp", m.sdp)])]
  | .command m =>
    Json.objOf [("peerType", .str "controller"), ("action", .str "command"),
      ("message", Json.objOf [("peer_id", .str m.peerId), ("command", .str m.command)])]

/-- `Signaling::MessageParser::parsePeerJoined`. -/
def MessageParser.parsePeerJoined (j : Json) : Option PeerJoinedMessage :=
  match j.find "message" with
  | none => none
  | some msg =>
    match msg.valueStr "peer_id" "" with
    | none => none
    | some peerId =>
      match msg.valueStr "source" "RGB" with
      | none => none
      | some source =>
        if peerId = "" then none
        else some { peerId := peerId, source := source }

/-- `Signaling::MessageParser::parsePeerLeft`. -/
def MessageParser.parsePeerLeft (j : Json) : Option PeerLeftMessage :=
  match j.find "message" with
  | none => none
  | some msg =>
    match msg.valueStr "peer_id" "" with
    | none => none
    | some peerId =>
      if peerId = "" then none
      else some { peerId := peerId }

/-- `Signaling::MessageParser::parseAnswer`.  The `sdp` payload is
normalized: an object is taken as-is; a string is re-parsed as JSON
(`jsonParse`) and, when that fails, wrapped into an object with fields
`sdp` (the raw string) and `type` (`"answer"`); any other payload leaves
the default-constructed (null) value, which the final emptiness check
rejects. -/
def MessageParser.parseAnswer (j : Json) : Option AnswerMessage :=
  match j.find "message" with
  | none => none
  | some msg =>
    match msg.valueStr "peer_id" "" with
    | none => none
    | some peerId =>
      match msg.find "sdp" with
      | none => none
      | some sdpVal =>
        let sdpNorm : Json :=
          if sdpVal.isObj then sdpVal
          else
            match sdpVal with
            | .str s =>
              match jsonParse s with
              | some v => v
              | none => Json.objOf [("sdp", .str s), ("type", .str "answer")]
            | _ => .null
        if peerId = "" then none
        else if sdpNorm.isEmpty then none
        else some { peerId := peerId, sdp := sdpNorm }

/-- `Signaling::MessageParser::parseIceCandidate`. -/
def MessageParser.parseIceCandidate (j : Json) : Option IceCandidateMessage :=
  match j.find "message" with
  | none => none
  | some msg =>
    match msg.valueStr "peer_id" "" with
    | none => none
    | some peerId =>
      match msg.find "ice" with
      | none => none
      | some ice =>
        match ice.valueStr "candidate" "" with
        | none => none
        | some candidate =>
          match ice.valueInt "sdpMLineIndex" (-1) with
          | none => none
          | some mlineIndex =>
            if peerId = "" || candidate = "" || mlineIndex < 0 then none
            else some { peerId := peerId, candidate := candidate, mlineIndex := mlineIndex }

/-- `Signaling::MessageParser::parseCommand`.  When none of the known
command keys is present the default-constructed message (empty command,
null parameters) is returned, exactly as in the source. -/
def MessageParser.parseCommand (j : Json) : Option CommandMessage :=
  match j.find "message" with
  | none => none
  | some msg =>
    match msg.valueStr "peer_id" "" with
    | none => none
    | some peerId =>
      if msg.contains "ptz" then
        some { peerId := peerId, command := "ptz", parameters := (msg.find "ptz").getD .null }
      else if msg.contains "record" then
        some { peerId := peerId, command := "record", parameters := (msg.find "record").getD .null }
      else if msg.contains "custom_command" then
        some { peerId := peerId, command := "custom_command", parameters := msg }
      else
        some { peerId := peerId, command := "", parameters := .null }

/-- `Signaling::MessageParser::parse`, at the JSON-tree level (the initial
`nlohmann::json::parse` of the wire text is modelled as the identity on
trees).  Dispatches on the `action` discriminator; a missing or non-string
`action`, the ignored `camstatus_reply`, and unknown actions all yield
`none`. -/
def MessageParser.parse (j : Json) : Option Message :=
  match j.find "action" with
  | some (.str action) =>
    if action = "camstatus_reply" then none
    else if action = "ROOM_PEER_JOINED" then (MessageParser.parsePeerJoined j).map .peerJoined
    else if action = "ROOM_PEER_LEFT" then (MessageParser.parsePeerLeft j).map .peerLeft
    else if action = "answer" then (MessageParser.parseAnswer j).map .answer
    else if action = "candidate" then (MessageParser.parseIceCandidate j).map .iceCandidate
    else if action = "send_camera" then (MessageParser.parseCommand j).map .command
    else none
  | _ => none

end Signaling

/-- The SDP extraction in `MessageHandler::handleAnswer`: from an object,
the string stored under `sdp`; from a string, the string itself; otherwise
the empty string (which the caller treats as extraction failure and drops
the message). -/
def MessageHandler.extractSdp (sdp : Json) : String :=
  if sdp.isObj then
    match sdp.find "sdp" with
    | some (.str s) => s
    | _ => ""
  else
    match sdp with
    | .str s => s
    | _ => ""

/-- `Pipeline::Impl::allocateDynamicPort`: scan the fixed dynamic range
8000..8999 in ascending order and lease the first port not in
`usedDynamicPorts`.  The C++ function returns `-1` on exhaustion; the
failure is modelled as `none`.  `std::set<int>` is modelled as the list of
currently-leased ports (membership-based). -/
def allocateDynamicPort (used : List Nat) : Option Nat × List Nat :=
  match (List.range' 8000 1000).find? (fun port => !(used.contains port)) with
  | some port => (some port, port :: used)
  | none => (none, used)

/-- `Pipeline::Impl::releaseDynamicPort`: `usedDynamicPorts.erase(port)`. -/
def releaseDynamicPort (used : List Nat) (port : Nat) : List Nat :=
  used.filter (fun q => q ≠ port)

/-- `CameraDevice`. -/
inductive CameraDevice where
  | RGB
  | THERMAL
deriving Repr, DecidableEq, BEq, Inhabited

/-- `StreamType`. -/
inductive StreamType where
  | MAIN
  | SECONDARY
deriving Repr, DecidableEq, BEq, Inhabited

/-- A `Pipeline::StreamInfo` slot of the fixed slot table
(`Pipeline::Impl::streams`): pre-built per (device, type) with a fixed port;
`Impl::initializeStreams` creates every slot inactive with a
default-constructed (empty) `peerId`.  The `udpsink` element handle is
outside the model. -/
structure StreamSlot where
  peerId : String
  device : CameraDevice
  type : StreamType
  port : Nat
  active : Bool
deriving Repr, DecidableEq, Inhabited

/-- The stream bookkeeping of `Pipeline::Impl`: the fixed slot table
(`streams`, driven by `addStream`/`removeStream`), the per-peer dynamic
routes (`dynamicStreams`, each `DynamicStreamInfo` reduced to the leased
port, the only field the registry consumes; the GStreamer element handles
are outside the model) and the leased-port set of the dynamic range.  As in
the source, the slot table and the dynamic-route table are two separate
mechanisms: `addStream` touches only the slots, while `getDynamicStreamInfo`
reads only `dynamicStreams`, which `addDynamicStream` alone populates. -/
structure PipelineState where
  dynamicStreams : List (String × Nat)
  usedDynamicPorts : List Nat
  streams : List StreamSlot := []
deriving Repr, DecidableEq, Inhabited

/-- Outcomes of the GStreamer calls made by `Pipeline::addDynamicStream`,
in source order; each is an external effect that can fail. -/
structure GstEnv where
  teeFound : Bool
  queueMade : Bool
  udpsinkMade : Bool
  binAddQueue : Bool
  binAddSink : Bool
  linked : Bool
  padRequested : Bool
  padLinked : Bool
deriving Repr, DecidableEq, Inhabited

/-- `Pipeline::addDynamicStream`: reject a duplicate peer id, find the tee,
lease a port, then build and link the queue/udpsink elements; every failure
after the lease releases the port again (the element unrefs have no
model-state effect), and only full success records the stream. -/
def Pipeline.addDynamicStream (env : GstEnv) (st : PipelineState) (peerId : String) :
    Option Nat × PipelineState :=
  if (st.dynamicStreams.lookup peerId).isSome then (none, st)
  else if !env.teeFound then (none, st)
  else
    match allocateDynamicPort st.usedDynamicPorts with
    | (none, _) => (none, st)
    | (some port, used) =>
      let leased : PipelineState := { st with usedDynamicPorts := used }
      let rolledBack : PipelineState :=
        { leased with usedDynamicPorts := releaseDynamicPort leased.usedDynamicPorts port }
      if !env.queueMade then (none, rolledBack)
      else if !env.udpsinkMade then (none, rolledBack)
      else if !env.binAddQueue then (none, rolledBack)
      else if !env.binAddSink then (none, rolledBack)
      else if !env.linked then (none, rolledBack)
      else if !env.padRequested then (none, rolledBack)
      else if !env.padLinked then (none, rolledBack)
      else (some port, { leased with
                           dynamicStreams := (peerId, port) :: leased.dynamicStreams })

/-- `Pipeline::removeDynamicStream`: tear down the route (the GStreamer
teardown steps have no model-state effect), release its port and drop the
map entry. -/
def Pipeline.removeDynamicStream (st : PipelineState) (peerId : String) :
    Bool × PipelineState :=
  match st.dynamicStreams.lookup peerId with
  | none => (false, st)
  | some port =>
    (true, { st with
             dynamicStreams := st.dynamicStreams.filter (fun kv => kv.1 ≠ peerId),
             usedDynamicPorts := releaseDynamicPort st.usedDynamicPorts port })

/-- `Pipeline::getDynamicStreamInfo`, reduced to the leased port.  It reads
only the dynamic-route table; nothing in this repository ever calls
`addDynamicStream`, so on the program's own states this lookup always
fails. -/
def Pipeline.getDynamicStreamInfo (st : PipelineState) (peerId : String) : Option Nat :=
  st.dynamicStreams.lookup peerId

/-- Whether `pat` is a leading run of `cs` (character-wise). -/
def leadMatches : List Char → List Char → Bool
  | [], _ => true
  | _ :: _, [] => false
  | a :: pat, c :: cs => a = c && leadMatches pat cs

/-- `std::string::find(pat) != npos`: some position of `cs` starts with
`pat`. -/
def containsSub (cs pat : List Char) : Bool :=
  match cs with
  | [] => leadMatches pat []
  | _ :: rest => leadMatches pat cs || containsSub rest pat

/-- `WebRTCManager::parseSource`. -/
def WebRTCManager.parseSource (source : String) : CameraDevice :=
  if containsSub source.data "RGB".data || containsSub source.data "rgb".data
      || source = "0" then
    .RGB
  else if containsSub source.data "Thermal".data || containsSub source.data "thermal".data
      || source = "1" then
    .THERMAL
  else
    .RGB

/-- `WebRTCManager::parseStreamType`. -/
def WebRTCManager.parseStreamType (source : String) : StreamType :=
  if containsSub source.data "sub".data || containsSub source.data "secondary".data
      || containsSub source.data "enc2".data then
    .SECONDARY
  else
    .MAIN

/-- The slot-activation scan inside `Pipeline::addStream`: the first
inactive slot of the requested device and type is claimed for the peer;
`none` when no slot is free. -/
def activateFirstFree : List StreamSlot → String → CameraDevice → StreamType →
    Option (List StreamSlot)
  | [], _, _, _ => none
  | s :: rest, peerId, device, type =>
    if !s.active && s.device == device && s.type == type then
      some ({ s with peerId := peerId, active := true } :: rest)
    else
      match activateFirstFree rest peerId device type with
      | some rest2 => some (s :: rest2)
      | none => none

/-- `Pipeline::addStream` (the slot-based mechanism the registry's add path
actually calls): reject when the first slot already carrying this
(peerId, device, type) triple is active, otherwise activate the first free
slot of that device and type (the `udpsink` property write has no
model-state effect); false when no slot is free. -/
def Pipeline.addStream (st : PipelineState) (peerId : String) (device : CameraDevice)
    (type : StreamType) : Bool × PipelineState :=
  match st.streams.find? (fun s => s.peerId == peerId && s.device == device
      && s.type == type) with
  | some s =>
    if s.active then (false, st)
    else
      match activateFirstFree st.streams peerId device type with
      | none => (false, st)
      | some streams2 => (true, { st with streams := streams2 })
  | none =>
    match activateFirstFree st.streams peerId device type with
    | none => (false, st)
    | some streams2 => (true, { st with streams := streams2 })

/-- `Pipeline::removeStream`: deactivate every active slot held by the peer,
clearing its id; returns whether any slot was released. -/
def Pipeline.removeStream (st : PipelineState) (peerId : String) : Bool × PipelineState :=
  (st.streams.any (fun s => s.peerId == peerId && s.active),
   { st with streams := st.streams.map (fun s =>
       if s.peerId == peerId && s.active then { s with active := false, peerId := "" }
       else s) })

namespace WebRTCPeer

/-- `WebRTCPeer::State`. -/
inductive State where
  | NEW
  | CONNECTING
  | CONNECTED
  | FAILED
  | CLOSED
deriving Repr, DecidableEq, Inhabited

/-- A `WebRTCPeer` object: its state machine value, whether
`impl_->webrtcbin` is non-null, and the candidates handed to the
`add-ice-candidate` signal (the observable effect of `addIceCandidate`). -/
structure Session where
  state : State
  webrtcbinValid : Bool
  forwardedCandidates : List (String × Int)
deriving Repr, DecidableEq, Inhabited

/-- A freshly constructed `WebRTCPeer`: state `NEW`, no `webrtcbin` yet. -/
def initSession : Session :=
  { state := .NEW, webrtcbinValid := false, forwardedCandidates := [] }

/-- `WebRTCPeer::connectToStream`: on success the WebRTC pipeline is built
(`webrtcbin` set) and the state becomes `CONNECTING`; every failure path
nulls `pipeline`/`webrtcbin` and returns false without touching the state.
`ok` is the combined outcome of the GStreamer element creation, linking and
state-change calls. -/
def connectToStream (s : Session) (ok : Bool) : Bool × Session :=
  if ok then (true, { s with state := .CONNECTING, webrtcbinValid := true })
  else (false, { s with webrtcbinValid := false })

/-- `WebRTCPeer::createOffer`: fails only when `webrtcbin` is missing;
otherwise it emits the asynchronous `create-offer` signal and returns true.
Neither outcome changes the session (the `promise` bookkeeping field is not
modelled). -/
def createOffer (s : Session) : Bool × Session :=
  if !s.webrtcbinValid then (false, s) else (true, s)

/-- `WebRTCPeer::setRemoteDescription`: fails when `webrtcbin` is missing or
the SDP text does not parse (`sdpOk` is the `gst_sdp_message_parse_buffer`
outcome); an `answer` completes negotiation (state `CONNECTED`), an offer
triggers asynchronous answer generation with no synchronous state change. -/
def setRemoteDescription (s : Session) (type : String) (sdpOk : Bool) : Bool × Session :=
  if !s.webrtcbinValid then (false, s)
  else if !sdpOk then (false, s)
  else if type = "answer" then (true, { s with state := .CONNECTED })
  else (true, s)

/-- `WebRTCPeer::addIceCandidate`: with no `webrtcbin` it only logs and
returns false (no state change, no error callback); otherwise the candidate
is handed to the `add-ice-candidate` signal of the media route. -/
def addIceCandidate (s : Session) (candidate : String) (mlineIndex : Int) : Bool × Session :=
  if !s.webrtcbinValid then (false, s)
  else (true, { s with forwardedCandidates := s.forwardedCandidates ++ [(candidate, mlineIndex)] })

/-- `WebRTCPeer::disconnect`: idempotent transition to `CLOSED`;
`Impl::cleanup` nulls `webrtcbin`. -/
def disconnect (s : Session) : Session :=
  if s.state = .CLOSED then s
  else { s with state := .CLOSED, webrtcbinValid := false }

/-- Session values reachable as the program drives a peer: constructed in
`NEW`; `connectToStream` is invoked once from `NEW`
(`WebRTCManager::createPeerConnection`, directly after construction); then
offers, remote descriptions, ICE candidates and `disconnect` arrive in any
order as signaling messages are dispatched. -/
inductive Reachable : Session → Prop where
  | init : Reachable initSession
  | connect (s : Session) (ok : Bool) : Reachable s → s.state = .NEW →
      Reachable (connectToStream s ok).2
  | offer (s : Session) : Reachable s → Reachable (createOffer s).2
  | remote (s : Session) (type : String) (sdpOk : Bool) : Reachable s →
      Reachable (setRemoteDescription s type sdpOk).2
  | ice (s : Session) (candidate : String) (mlineIndex : Int) : Reachable s →
      Reachable (addIceCandidate s candidate mlineIndex).2
  | close (s : Session) : Reachable s → Reachable (disconnect s)

end WebRTCPeer

/-- A `WebRTCManager::PeerContext`: the per-peer bookkeeping the registry
owns (`info` reduced to the id, the session object, the port read from the
dynamic stream info and whether the `udpsrc` element exists). -/
structure PeerContext where
  peerId : String
  session : WebRTCPeer.Session
  streamPort : Option Nat
  udpSrcValid : Bool
deriving Repr, DecidableEq, Inhabited

/-- The `WebRTCManager` registry: the peer map (`peers_`, an
`std::unordered_map` modelled as a key-unique association list) and the
`Pipeline` collaborator state it mutates.  As in the source, the add path
activates a slot through `Pipeline::addStream` but then reads
`Pipeline::getDynamicStreamInfo`, which consults the dynamic-route table
that nothing in this repository ever writes — so on the program's own
states the wiring step always fails and every add is rolled back. -/
structure ManagerState where
  peers : List (String × PeerContext)
  pipeline : PipelineState
deriving Repr, DecidableEq, Inhabited

/-- Outcomes of the external calls made during one `addPeer` run: the
`udpsrc` element creation in `createPeerConnection` and the outcome of
`WebRTCPeer::connectToStream` (the slot-based `addStream` makes no fallible
external call). -/
structure AddPeerEnv where
  udpSrcMade : Bool
  connectOk : Bool
deriving Repr, DecidableEq, Inhabited

/-- Replace the context stored for `peerId` (writes through the map
iterator; entries with other keys are untouched). -/
def ManagerState.setPeer (st : ManagerState) (peerId : String) (ctx : PeerContext) :
    ManagerState :=
  { st with peers := st.peers.map (fun kv => if kv.1 = peerId then (peerId, ctx) else kv) }

/-- `WebRTCManager::createPeerConnection`: look the peer up, read the
dynamic stream info (recording its port in the context), create the
`udpsrc` element and hand it to `WebRTCPeer::connectToStream`; on the
connect failure the `udpsrc` is unreffed and nulled. -/
def WebRTCManager.createPeerConnection (env : AddPeerEnv) (st : ManagerState)
    (peerId : String) : Bool × ManagerState :=
  match st.peers.lookup peerId with
  | none => (false, st)
  | some ctx =>
    match Pipeline.getDynamicStreamInfo st.pipeline peerId with
    | none => (false, st)
    | some port =>
      let ctx1 := { ctx with streamPort := some port }
      let st1 := st.setPeer peerId ctx1
      if !env.udpSrcMade then (false, st1)
      else
        let ctx2 := { ctx1 with udpSrcValid := true }
        let connected := WebRTCPeer.connectToStream ctx2.session env.connectOk
        if connected.1 then
          (true, st1.setPeer peerId { ctx2 with session := connected.2 })
        else
          (false, st1.setPeer peerId { ctx2 with session := connected.2, udpSrcValid := false })

/-- `WebRTCManager::addPeer`: reject a duplicate id; build the context and
session; activate a pipeline stream slot (`Pipeline::addStream` with the
device and type parsed from `source`); insert the peer into the map; wire
the UDP source (`createPeerConnection`), rolling the slot and the map entry
back if that fails; finally request the initial offer, whose failure is
only logged.  Because `createPeerConnection` reads the dynamic-route table
that nothing populates, the wiring step fails on all of this program's
states and every add is rolled back. -/
def WebRTCManager.addPeer (env : AddPeerEnv) (st : ManagerState)
    (peerId source : String) : Bool × ManagerState :=
  if (st.peers.lookup peerId).isSome then (false, st)
  else
    let ctx : PeerContext :=
      { peerId := peerId, session := WebRTCPeer.initSession,
        streamPort := none, udpSrcValid := false }
    let added := Pipeline.addStream st.pipeline peerId
      (WebRTCManager.parseSource source) (WebRTCManager.parseStreamType source)
    if !added.1 then (false, { st with pipeline := added.2 })
    else
      let st1 : ManagerState := { peers := (peerId, ctx) :: st.peers, pipeline := added.2 }
      let wired := WebRTCManager.createPeerConnection env st1 peerId
      if wired.1 then
        let st2 := wired.2
        match st2.peers.lookup peerId with
        | some ctx2 =>
          (true, st2.setPeer peerId { ctx2 with session := (WebRTCPeer.createOffer ctx2.session).2 })
        | none => (true, st2)
      else
        let removed := Pipeline.removeStream wired.2.pipeline peerId
        (false, { peers := wired.2.peers.filter (fun kv => kv.1 ≠ peerId),
                  pipeline := removed.2 })

/-- `WebRTCManager::addPeerSync`: the same logic as `addPeer` with the
offer-request step omitted. -/
def WebRTCManager.addPeerSync (env : AddPeerEnv) (st : ManagerState)
    (peerId source : String) : Bool × ManagerState :=
  if (st.peers.lookup peerId).isSome then (false, st)
  else
    let ctx : PeerContext :=
      { peerId := peerId, session := WebRTCPeer.initSession,
        streamPort := none, udpSrcValid := false }
    let added := Pipeline.addStream st.pipeline peerId
      (WebRTCManager.parseSource source) (WebRTCManager.parseStreamType source)
    if !added.1 then (false, { st with pipeline := added.2 })
    else
      let st1 : ManagerState := { peers := (peerId, ctx) :: st.peers, pipeline := added.2 }
      let wired := WebRTCManager.createPeerConnection env st1 peerId
      if wired.1 then (true, wired.2)
      else
        let removed := Pipeline.removeStream wired.2.pipeline peerId
        (false, { peers := wired.2.peers.filter (fun kv => kv.1 ≠ peerId),
                  pipeline := removed.2 })

/-- `WebRTCManager::removePeer`: disconnect the session, release the
peer's pipeline stream slot (`Pipeline::removeStream`), clean up the UDP
source and erase the map entry; returns false when the peer is absent. -/
def WebRTCManager.removePeer (st : ManagerState) (peerId : String) : Bool × ManagerState :=
  match st.peers.lookup peerId with
  | none => (false, st)
  | some _ =>
    let removed := Pipeline.removeStream st.pipeline peerId
    (true, { peers := st.peers.filter (fun kv => kv.1 ≠ peerId), pipeline := removed.2 })

/-- `WebRTCManager::removeAllPeers`: snapshot the current peer ids, then
remove each one individually through `removePeer`. -/
def WebRTCManager.removeAllPeers (st : ManagerState) : ManagerState :=
  (st.peers.map Prod.fst).foldl (fun acc peerId => (WebRTCManager.removePeer acc peerId).2) st

/-- `WebRTCManager::getPeerCount`. -/
def WebRTCManager.getPeerCount (st : ManagerState) : Nat :=
  st.peers.length

/-- `WebRTCManager::handleIceCandidate`: forward to the session of the named
peer, false when it is absent. -/
def WebRTCManager.handleIceCandidate (st : ManagerState) (peerId candidate : String)
    (mlineIndex : Int) : Bool × ManagerState :=
  match st.peers.lookup peerId with
  | none => (false, st)
  | some ctx =>
    let r := WebRTCPeer.addIceCandidate ctx.session candidate mlineIndex
    (r.1, st.setPeer peerId { ctx with session := r.2 })

/-- `Application::State`. -/
inductive AppState where
  | UNKNOWN
  | INITIALIZING
  | INITIALIZED
  | CONNECTING
  | CONNECTED
  | REGISTERING
  | REGISTERED
  | RUNNING
  | SHUTTING_DOWN
  | ERROR
deriving Repr, DecidableEq, Inhabited

/-- The supervisor state carried by `Application`: the connection state, the
reconnect attempt counter and the owned peer registry. -/
structure AppModel where
  state : AppState
  reconnectAttempts : Nat
  manager : ManagerState
deriving Repr, DecidableEq, Inhabited

/-- Two's-complement reinterpretation of a value modulo 2^32. -/
def toSigned32 (n : Int) : Int :=
  let r := n % 4294967296
  if r < 2147483648 then r else r - 4294967296

/-- The C++ expression `1 << reconnectAttempts_` on a 32-bit `int`: the
result wraps to two's complement, and the shift count is taken modulo 32 as
x86 hardware does (C++20 defines the wrap for counts below 32; counts of 32
and above are undefined behaviour, modelled by the hardware semantics). -/
def cppShlInt32 (x : Int) (n : Nat) : Int :=
  toSigned32 (x * 2 ^ (n % 32))

/-- The backoff computation in `Application::checkAndReconnect`:
`std::min(60, (1 << reconnectAttempts_))` seconds. -/
def backoffTime (reconnectAttempts : Nat) : Int :=
  min 60 (cppShlInt32 1 reconnectAttempts)

/-- `Application::onWebSocketConnected`: reset the attempt counter, register
with the server and move (through `CONNECTED`) to `REGISTERED` without
waiting for an acknowledgement. -/
def Application.onWebSocketConnected (a : AppModel) : AppModel :=
  { a with state := .REGISTERED, reconnectAttempts := 0 }

/-- `Application::onWebSocketDisconnected`: fall back to `CONNECTING` and
tear down every WebRTC peer; reconnection is left to the heartbeat
thread. -/
def Application.onWebSocketDisconnected (a : AppModel) : AppModel :=
  { a with state := .CONNECTING, manager := WebRTCManager.removeAllPeers a.manager }

theorem find?_range'_first (pred : Nat → Bool) :
    ∀ (n s p : Nat), (List.range' s n).find? pred = some p →
      pred p = true ∧ s ≤ p ∧ p < s + n ∧ ∀ q, s ≤ q → q < p → pred q = false := by
  intro n
  induction n with
  | zero => intro s p h; simp at h
  | succ n ih =>
    intro s p h
    rw [List.range'_succ] at h
    by_cases hs : pred s
    · rw [List.find?_cons_of_pos _ hs] at h
      cases h
      exact ⟨hs, le_refl _, by omega, fun q hq1 hq2 => absurd hq1 (by omega)⟩
    · rw [List.find?_cons_of_neg _ hs] at h
      obtain ⟨h1, h2, h3, h4⟩ := ih (s + 1) p h
      refine ⟨h1, by omega, by omega, fun q hq1 hq2 => ?_⟩
      rcases Nat.eq_or_lt_of_le hq1 with rfl | hlt
      · exact Bool.eq_false_iff.mpr hs
      · exact h4 q (by omega) hq2

theorem find?_range'_of_first (pred : Nat → Bool) :
    ∀ (n s p : Nat), pred p = true → s ≤ p → p < s + n →
      (∀ q, s ≤ q → q < p → pred q = false) →
      (List.range' s n).find? pred = some p := by
  intro n
  induction n with
  | zero => intro s p _ h1 h2; omega
  | succ n ih =>
    intro s p hp h1 h2 hmin
    rw [List.range'_succ]
    rcases Nat.eq_or_lt_of_le h1 with rfl | hlt
    · rw [List.find?_cons_of_pos _ hp]
    · rw [List.find?_cons_of_neg]
      · exact ih (s + 1) p hp (by omega) (by omega) (fun q hq1 hq2 => hmin q (by omega) hq2)
      · simp [hmin s (le_refl s) hlt]

theorem allocateDynamicPort_some (used : List Nat) (p : Nat)
    (h : (allocateDynamicPort used).1 = some p) :
    (List.range' 8000 1000).find? (fun port => !(used.contains port)) = some p ∧
    (allocateDynamicPort used).2 = p :: used := by
  cases hfind : (List.range' 8000 1000).find? (fun port => !(used.contains port)) with
  | none =>
    unfold allocateDynamicPort at h
    rw [hfind] at h
    simp at h
  | some q =>
    unfold allocateDynamicPort at h
    rw [hfind] at h
    simp only [Option.some.injEq] at h
    subst h
    refine ⟨rfl, ?_⟩
    unfold allocateDynamicPort
    rw [hfind]

theorem allocateDynamicPort_none (used : List Nat)
    (h : (allocateDynamicPort used).1 = none) :
    (List.range' 8000 1000).find? (fun port => !(used.contains port)) = none := by
  unfold allocateDynamicPort at h
  cases hfind : (List.range' 8000 1000).find? (fun port => !(used.contains port)) with
  | none => rfl
  | some q => rw [hfind] at h; simp at h

theorem notMem_of_pred_alloc (used : List Nat) (p : Nat)
    (h : (!(used.contains p)) = true) : p ∉ used := by
  simp only [Bool.not_eq_true'] at h
  intro hmem
  have hc : used.contains p = true := List.elem_iff.mpr hmem
  rw [h] at hc
  exact Bool.false_ne_true hc

/-- C5: for every port-pool state (in particular every reachable one),
`allocate` returns a port in the fixed range 8000..8999 that is not
currently leased and marks it leased (so an immediate further allocation
cannot return it again), and it fails exactly when every port of the range
is leased. -/
theorem C5_port_allocation (used : List Nat) :
    (∀ p : Nat, (allocateDynamicPort used).1 = some p →
        8000 ≤ p ∧ p < 9000 ∧ p ∉ used ∧ p ∈ (allocateDynamicPort used).2 ∧
        (allocateDynamicPort (allocateDynamicPort used).2).1 ≠ some p) ∧
    ((allocateDynamicPort used).1 = none ↔ ∀ p : Nat, 8000 ≤ p → p < 9000 → p ∈ used) := by
  constructor
  · intro p hp
    obtain ⟨hfind, hst⟩ := allocateDynamicPort_some used p hp
    obtain ⟨hpred, hlo, hhi, _⟩ := find?_range'_first _ 1000 8000 p hfind
    have hnotmem : p ∉ used := notMem_of_pred_alloc used p hpred
    have hself : p ∈ (allocateDynamicPort used).2 := by rw [hst]; exact List.mem_cons_self _ _
    refine ⟨hlo, by omega, hnotmem, hself, ?_⟩
    intro hagain
    obtain ⟨hfind2, _⟩ := allocateDynamicPort_some _ p hagain
    obtain ⟨hpred2, _, _, _⟩ := find?_range'_first _ 1000 8000 p hfind2
    exact absurd hself (notMem_of_pred_alloc _ p hpred2)
  · constructor
    · intro hnone p h1 h2
      have hfind := allocateDynamicPort_none used hnone
      rw [List.find?_eq_none] at hfind
      have := hfind p (by rw [List.mem_range'_1]; omega)
      simp only [Bool.not_eq_true, Bool.not_eq_false] at this
      exact List.elem_iff.mp (by simpa using this)
    · intro hall
      unfold allocateDynamicPort
      cases hfind : (List.range' 8000 1000).find? (fun port => !(used.contains port)) with
      | none => simp
      | some q =>
        obtain ⟨hpred, hlo, hhi, _⟩ := find?_range'_first _ 1000 8000 q hfind
        exact absurd (hall q hlo (by omega)) (notMem_of_pred_alloc used q hpred)

/-- C10: allocation is deterministic lowest-first: a returned port is the
least unleased port of the range; and immediately after `release(p)` a
further `allocate()` returns `p` precisely when `p` is then the least free
port of the range. -/
theorem C10_lowest_first (used : List Nat) (p : Nat) :
    ((allocateDynamicPort used).1 = some p →
        ∀ q, 8000 ≤ q → q < 9000 → q ∉ used → p ≤ q) ∧
    ((allocateDynamicPort (releaseDynamicPort used p)).1 = some p ↔
        8000 ≤ p ∧ p < 9000 ∧
        ∀ q, 8000 ≤ q → q < 9000 → q ∉ releaseDynamicPort used p → p ≤ q) := by
  constructor
  · intro hp q h1 h2 h3
    obtain ⟨hfind, _⟩ := allocateDynamicPort_some used p hp
    obtain ⟨_, _, _, hmin⟩ := find?_range'_first _ 1000 8000 p hfind
    by_contra hlt
    have := hmin q h1 (by omega)
    simp only [Bool.not_eq_true'] at this
    exact h3 (List.elem_iff.mp (by simpa using this))
  · constructor
    · intro hp
      obtain ⟨hfind, _⟩ := allocateDynamicPort_some _ p hp
      obtain ⟨_, hlo, hhi, hmin⟩ := find?_range'_first _ 1000 8000 p hfind
      refine ⟨hlo, by omega, fun q h1 h2 h3 => ?_⟩
      by_contra hlt
      have := hmin q h1 (by omega)
      simp only [Bool.not_eq_true'] at this
      exact h3 (List.elem_iff.mp (by simpa using this))
    · intro ⟨h1, h2, hmin⟩
      have hpfree : p ∉ releaseDynamicPort used p := by
        intro hmem
        unfold releaseDynamicPort at hmem
        have := List.of_mem_filter hmem
        simp at this
      have hfind : (List.range' 8000 1000).find?
          (fun port => !((releaseDynamicPort used p).contains port)) = some p := by
        apply find?_range'_of_first _ 1000 8000 p
        · simp only [Bool.not_eq_true']
          rw [← Bool.not_eq_true]
          intro hc
          exact hpfree (List.elem_iff.mp (by simpa using hc))
        · exact h1
        · omega
        · intro q hq1 hq2
          by_cases hmem : q ∈ releaseDynamicPort used p
          · have hc : (releaseDynamicPort used p).contains q = true := List.elem_iff.mpr hmem
            simp only [hc, Bool.not_true]
          · exact absurd (hmin q hq1 (by omega) hmem) (by omega)
      unfold allocateDynamicPort
      rw [hfind]

/-- Witness for C5 at a concrete pool: with 8000 leased, allocation returns
8001, a fresh in-range port, and leases it. -/
theorem C5_port_allocation_witness :
    8000 ≤ 8001 ∧ 8001 < 9000 ∧ 8001 ∉ [8000] ∧
      8001 ∈ (allocateDynamicPort [8000]).2 ∧
      (allocateDynamicPort (allocateDynamicPort [8000]).2).1 ≠ some 8001 :=
  (C5_port_allocation [8000]).1 8001 rfl

/-- Witness for C10: after releasing 8001 from a pool leasing 8000..8002,
the next allocation returns 8001 (the least free port). -/
theorem C10_lowest_first_witness :
    (allocateDynamicPort (releaseDynamicPort [8000, 8001, 8002] 8001)).1 = some 8001 := by
  apply (C10_lowest_first [8000, 8001, 8002] 8001).2.mpr
  refine ⟨by norm_num, by norm_num, ?_⟩
  intro q h1 h2 h3
  rcases Nat.eq_or_lt_of_le h1 with rfl | h
  · exact absurd (by decide : (8000 : Nat) ∈ releaseDynamicPort [8000, 8001, 8002] 8001) h3
  · omega

/-- C3: the reconnect backoff `std::min(60, 1 << n)` equals `min 60 (2 ^ n)`
for `n ≤ 30` (yielding the sequence 1, 2, 4, ..., 32, 60, 60, ...), the
attempt counter resets to zero on a successful connect, and at `n = 31`
the 32-bit shift overflows making the backoff negative instead of the
specified 60-second cap. -/
theorem C3_backoff_overflow :
    (∀ n : Nat, n ≤ 30 → backoffTime n = min 60 ((2 : Int) ^ n)) ∧
    (∀ a : AppModel, (Application.onWebSocketConnected a).reconnectAttempts = 0) ∧
    backoffTime 31 = -2147483648 := by
  refine ⟨fun n hn => ?_, fun a => rfl, by decide⟩
  unfold backoffTime cppShlInt32 toSigned32
  have hmod : n % 32 = n := Nat.mod_eq_of_lt (by omega)
  rw [hmod, one_mul]
  have hlt : (2 : Int) ^ n < 2147483648 := by
    calc (2 : Int) ^ n ≤ 2 ^ 30 := pow_le_pow_right₀ (by norm_num) hn
    _ < 2147483648 := by norm_num
  have hpos : (0 : Int) ≤ 2 ^ n := by positivity
  have hmodInt : (2 : Int) ^ n % 4294967296 = 2 ^ n :=
    Int.emod_eq_of_lt hpos (by omega)
  simp only [hmodInt]
  rw [if_pos hlt]

/-- Witness for C3 at concrete attempt counts: the sixth retry waits 32
seconds, and a successful connect resets the counter. -/
theorem C3_backoff_overflow_witness :
    backoffTime 5 = 32 ∧
    (Application.onWebSocketConnected
        { state := .CONNECTED, reconnectAttempts := 9,
          manager := { peers := [], pipeline := { dynamicStreams := [], usedDynamicPorts := [] } } }).reconnectAttempts = 0 := by
  constructor
  · have h := C3_backoff_overflow.1 5 (by norm_num)
    rw [h]
    norm_num
  · exact C3_backoff_overflow.2.1 _

theorem lookup_eq_none_iff {α : Type} (l : List (String × α)) (k : String) :
    l.lookup k = none ↔ ∀ kv ∈ l, kv.1 ≠ k := by
  induction l with
  | nil => simp
  | cons hd tl ih =>
    obtain ⟨a, b⟩ := hd
    by_cases hak : k = a
    · subst hak
      simp [List.lookup]
    · have hbeq : (k == a) = false := by simp [hak]
      simp only [List.lookup, hbeq, List.mem_cons]
      constructor
      · intro h kv hkv
        rcases hkv with rfl | hm
        · exact fun hh => hak hh.symm
        · exact (ih.mp h) kv hm
      · intro h
        exact ih.mpr fun kv hm => h kv (Or.inr hm)

theorem lookup_cons_self {α : Type} (l : List (String × α)) (k : String) (v : α) :
    ((k, v) :: l).lookup k = some v := by
  simp [List.lookup]

theorem filter_ne_of_lookup_none {α : Type} (l : List (String × α)) (k : String)
    (h : l.lookup k = none) : l.filter (fun kv => kv.1 ≠ k) = l := by
  apply List.filter_eq_self.mpr
  intro kv hkv
  simpa using (lookup_eq_none_iff l k).mp h kv hkv

theorem map_update_of_lookup_none {α : Type} (l : List (String × α)) (k : String) (c : α)
    (h : l.lookup k = none) :
    l.map (fun kv => if kv.1 = k then (k, c) else kv) = l := by
  have hne := (lookup_eq_none_iff l k).mp h
  calc l.map (fun kv => if kv.1 = k then (k, c) else kv) = l.map id := by
        apply List.map_congr_left
        intro kv hkv
        simp [hne kv hkv]
  _ = l := List.map_id l

theorem release_cons_self (used : List Nat) (port : Nat) (h : port ∉ used) :
    releaseDynamicPort (port :: used) port = used := by
  unfold releaseDynamicPort
  rw [List.filter_cons_of_neg (by simp)]
  apply List.filter_eq_self.mpr
  intro q hq
  simp only [ne_eq, decide_eq_true_eq]
  intro hqe
  exact h (hqe ▸ hq)

theorem addDynamicStream_none (env : GstEnv) (st : PipelineState) (peerId : String)
    (h : (Pipeline.addDynamicStream env st peerId).1 = none) :
    (Pipeline.addDynamicStream env st peerId).2 = st := by
  unfold Pipeline.addDynamicStream at h ⊢
  by_cases hdup : (st.dynamicStreams.lookup peerId).isSome
  · simp [hdup]
  · simp only [hdup, Bool.false_eq_true, if_false] at h ⊢
    by_cases htee : env.teeFound
    · simp only [htee, Bool.not_true, Bool.false_eq_true, if_false] at h ⊢
      cases halloc : allocateDynamicPort st.usedDynamicPorts with
      | mk res used =>
        cases res with
        | none => simp [halloc]
        | some port =>
          have hfst : (allocateDynamicPort st.usedDynamicPorts).1 = some port := by
            rw [halloc]
          obtain ⟨hfind, hsnd⟩ := allocateDynamicPort_some _ _ hfst
          obtain ⟨hpred, _, _, _⟩ := find?_range'_first _ 1000 8000 port hfind
          have hnot : port ∉ st.usedDynamicPorts := notMem_of_pred_alloc _ _ hpred
          have hused : used = port :: st.usedDynamicPorts := by
            rw [halloc] at hsnd
            exact hsnd
          subst hused
          simp only [halloc] at h ⊢
          have hrel : releaseDynamicPort (port :: st.usedDynamicPorts) port = st.usedDynamicPorts :=
            release_cons_self _ _ hnot
          split_ifs at h ⊢ <;> simp_all [hrel]
    · simp [htee]

theorem addDynamicStream_some (env : GstEnv) (st : PipelineState) (peerId : String)
    (port : Nat) (h : (Pipeline.addDynamicStream env st peerId).1 = some port) :
    st.dynamicStreams.lookup peerId = none ∧
    port ∉ st.usedDynamicPorts ∧
    (Pipeline.addDynamicStream env st peerId).2 =
      { st with dynamicStreams := (peerId, port) :: st.dynamicStreams,
                usedDynamicPorts := port :: st.usedDynamicPorts } := by
  unfold Pipeline.addDynamicStream at h ⊢
  by_cases hdup : (st.dynamicStreams.lookup peerId).isSome
  · simp [hdup] at h
  · have hdupn : st.dynamicStreams.lookup peerId = none := by
      cases hv : st.dynamicStreams.lookup peerId
      · rfl
      · rw [hv] at hdup; simp at hdup
    simp only [hdup, Bool.false_eq_true, if_false] at h ⊢
    by_cases htee : env.teeFound
    · simp only [htee, Bool.not_true, Bool.false_eq_true, if_false] at h ⊢
      cases halloc : allocateDynamicPort st.usedDynamicPorts with
      | mk res used =>
        cases res with
        | none => simp [halloc] at h
        | some p =>
          have hfst : (allocateDynamicPort st.usedDynamicPorts).1 = some p := by
            rw [halloc]
          obtain ⟨hfind, hsnd⟩ := allocateDynamicPort_some _ _ hfst
          obtain ⟨hpred, _, _, _⟩ := find?_range'_first _ 1000 8000 p hfind
          have hnot : p ∉ st.usedDynamicPorts := notMem_of_pred_alloc _ _ hpred
          have hused : used = p :: st.usedDynamicPorts := by
            rw [halloc] at hsnd
            exact hsnd
          subst hused
          simp only [halloc] at h ⊢
          refine ⟨hdupn, ?_, ?_⟩
          · split_ifs at h ⊢
            simp_all
          · split_ifs at h ⊢
            simp_all
    · simp [htee] at h

theorem setPeer_cons (l : List (String × PeerContext)) (pipe : PipelineState)
    (pid : String) (c0 c : PeerContext) (h : l.lookup pid = none) :
    ManagerState.setPeer { peers := (pid, c0) :: l, pipeline := pipe } pid c =
      { peers := (pid, c) :: l, pipeline := pipe } := by
  unfold ManagerState.setPeer
  simp only [List.map_cons, if_true, map_update_of_lookup_none l pid c h]

theorem createPeerConnection_cons (env : AddPeerEnv) (l : List (String × PeerContext))
    (pipe : PipelineState) (pid : String) (c0 : PeerContext)
    (hl : l.lookup pid = none) (port : Nat)
    (hp : pipe.dynamicStreams.lookup pid = some port) :
    ∃ c : PeerContext,
      WebRTCManager.createPeerConnection env { peers := (pid, c0) :: l, pipeline := pipe } pid =
        (env.udpSrcMade && env.connectOk, { peers := (pid, c) :: l, pipeline := pipe }) ∧
      (env.udpSrcMade = true → env.connectOk = true →
        c = { peerId := c0.peerId,
              session := { state := .CONNECTING, webrtcbinValid := true,
                           forwardedCandidates := c0.session.forwardedCandidates },
              streamPort := some port, udpSrcValid := true }) := by
  cases hu : env.udpSrcMade with
  | false =>
    refine ⟨{ c0 with streamPort := some port }, ?_, by intro h1; exact absurd h1 (by simp)⟩
    simp [WebRTCManager.createPeerConnection, Pipeline.getDynamicStreamInfo,
      lookup_cons_self, hp, hu, setPeer_cons _ _ _ _ _ hl]
  | true =>
    cases hc : env.connectOk with
    | false =>
      refine ⟨{ peerId := c0.peerId, session := { c0.session with webrtcbinValid := false },
                streamPort := some port, udpSrcValid := false }, ?_,
              by intro _ h2; exact absurd h2 (by simp)⟩
      simp [WebRTCManager.createPeerConnection, Pipeline.getDynamicStreamInfo,
        WebRTCPeer.connectToStream, lookup_cons_self, hp, hu, hc,
        setPeer_cons _ _ _ _ _ hl]
    | true =>
      refine ⟨{ peerId := c0.peerId,
                session := { state := .CONNECTING, webrtcbinValid := true,
                             forwardedCandidates := c0.session.forwardedCandidates },
                streamPort := some port, udpSrcValid := true }, ?_, fun _ _ => rfl⟩
      simp [WebRTCManager.createPeerConnection, Pipeline.getDynamicStreamInfo,
        WebRTCPeer.connectToStream, lookup_cons_self, hp, hu, hc,
        setPeer_cons _ _ _ _ _ hl]

theorem addStream_false (st : PipelineState) (peerId : String) (device : CameraDevice)
    (type : StreamType) (h : (Pipeline.addStream st peerId device type).1 = false) :
    (Pipeline.addStream st peerId device type).2 = st := by
  unfold Pipeline.addStream at h ⊢
  cases hf : st.streams.find? (fun s => s.peerId == peerId && s.device == device
      && s.type == type) with
  | some s =>
    by_cases ha : s.active
    · simp [hf, ha]
    · cases haf : activateFirstFree st.streams peerId device type with
      | none => simp [hf, ha, haf]
      | some streams2 => simp [hf, ha, haf] at h
  | none =>
    cases haf : activateFirstFree st.streams peerId device type with
    | none => simp [hf, haf]
    | some streams2 => simp [hf, haf] at h

theorem addStream_true (st : PipelineState) (peerId : String) (device : CameraDevice)
    (type : StreamType) (h : (Pipeline.addStream st peerId device type).1 = true) :
    ∃ streams2 : List StreamSlot,
      activateFirstFree st.streams peerId device type = some streams2 ∧
      (Pipeline.addStream st peerId device type).2 = { st with streams := streams2 } := by
  unfold Pipeline.addStream at h ⊢
  cases hf : st.streams.find? (fun s => s.peerId == peerId && s.device == device
      && s.type == type) with
  | some s =>
    by_cases ha : s.active
    · simp [hf, ha] at h
    · cases haf : activateFirstFree st.streams peerId device type with
      | none => simp [hf, ha, haf] at h
      | some streams2 => exact ⟨streams2, rfl, by simp [hf, ha, haf]⟩
  | none =>
    cases haf : activateFirstFree st.streams peerId device type with
    | none => simp [hf, haf] at h
    | some streams2 => exact ⟨streams2, rfl, by simp [hf, haf]⟩

theorem clear_map_id (peerId : String) :
    ∀ streams : List StreamSlot,
      (∀ s ∈ streams, (s.active = false → s.peerId = "") ∧
                      (s.active = true → s.peerId ≠ peerId)) →
      streams.map (fun s =>
        if s.peerId == peerId && s.active then { s with active := false, peerId := "" }
        else s) = streams := by
  intro streams
  induction streams with
  | nil => intro _; rfl
  | cons s rest ih =>
    intro hclean
    simp only [List.map_cons]
    congr 1
    · by_cases hsa : s.active
      · have hne := (hclean s (List.mem_cons_self s rest)).2 hsa
        have hbeq : (s.peerId == peerId) = false := beq_eq_false_iff_ne.mpr hne
        simp [hbeq]
      · have hsa2 : s.active = false := by simpa using hsa
        simp [hsa2]
    · exact ih fun r hr => hclean r (List.mem_cons_of_mem _ hr)

theorem activate_then_remove (peerId : String) (device : CameraDevice) (type : StreamType) :
    ∀ (streams streams2 : List StreamSlot),
      activateFirstFree streams peerId device type = some streams2 →
      (∀ s ∈ streams, (s.active = false → s.peerId = "") ∧
                      (s.active = true → s.peerId ≠ peerId)) →
      streams2.map (fun s =>
        if s.peerId == peerId && s.active then { s with active := false, peerId := "" }
        else s) = streams := by
  intro streams
  induction streams with
  | nil =>
    intro streams2 haf _
    simp [activateFirstFree] at haf
  | cons s rest ih =>
    intro streams2 haf hclean
    unfold activateFirstFree at haf
    by_cases hcond : (!s.active && s.device == device && s.type == type) = true
    · rw [if_pos hcond] at haf
      have hsa : s.active = false := by
        have h1 := hcond
        simp only [Bool.and_eq_true, Bool.not_eq_true'] at h1
        exact h1.1.1
      have hsp : s.peerId = "" := (hclean s (List.mem_cons_self s rest)).1 hsa
      injection haf with haf2
      subst haf2
      simp only [List.map_cons]
      congr 1
      · obtain ⟨sp, sd, sty, sport, sa⟩ := s
        simp only at hsa hsp
        subst hsa
        subst hsp
        simp
      · exact clear_map_id peerId rest fun r hr => hclean r (List.mem_cons_of_mem _ hr)
    · rw [if_neg hcond] at haf
      cases hrec : activateFirstFree rest peerId device type with
      | none => rw [hrec] at haf; exact absurd haf (by simp)
      | some rest2 =>
        rw [hrec] at haf
        injection haf with haf2
        subst haf2
        simp only [List.map_cons]
        congr 1
        · by_cases hsa : s.active
          · have hne := (hclean s (List.mem_cons_self s rest)).2 hsa
            have hbeq : (s.peerId == peerId) = false := beq_eq_false_iff_ne.mpr hne
            simp [hbeq]
          · have hsa2 : s.active = false := by simpa using hsa
            simp [hsa2]
        · exact ih rest2 hrec fun r hr => hclean r (List.mem_cons_of_mem _ hr)

theorem createPeerConnection_noRoute (env : AddPeerEnv) (st : ManagerState) (peerId : String)
    (hdyn : st.pipeline.dynamicStreams.lookup peerId = none) :
    WebRTCManager.createPeerConnection env st peerId = (false, st) := by
  unfold WebRTCManager.createPeerConnection Pipeline.getDynamicStreamInfo
  cases hlk : st.peers.lookup peerId with
  | none => rfl
  | some ctx => rw [hdyn]

theorem addPeer_cases (env : AddPeerEnv) (st : ManagerState) (peerId source : String) :
    (WebRTCManager.addPeer env st peerId source = (false, st) ∧
     WebRTCManager.addPeerSync env st peerId source = (false, st)) ∨
    (st.peers.lookup peerId = none ∧
     ∃ streams2 : List StreamSlot,
       activateFirstFree st.pipeline.streams peerId (WebRTCManager.parseSource source)
         (WebRTCManager.parseStreamType source) = some streams2 ∧
       ((WebRTCManager.addPeer env st peerId source =
           (false, { peers := st.peers,
                     pipeline := (Pipeline.removeStream
                       { st.pipeline with streams := streams2 } peerId).2 }) ∧
         WebRTCManager.addPeerSync env st peerId source =
           (false, { peers := st.peers,
                     pipeline := (Pipeline.removeStream
                       { st.pipeline with streams := streams2 } peerId).2 })) ∨
        (∃ port : Nat,
          st.pipeline.dynamicStreams.lookup peerId = some port ∧
          env.udpSrcMade = true ∧ env.connectOk = true ∧
          WebRTCManager.addPeer env st peerId source =
            (true, { peers := (peerId,
                       { peerId := peerId,
                         session := { state := .CONNECTING, webrtcbinValid := true,
                                      forwardedCandidates := [] },
                         streamPort := some port, udpSrcValid := true }) :: st.peers,
                     pipeline := { st.pipeline with streams := streams2 } }) ∧
          WebRTCManager.addPeerSync env st peerId source =
            (true, { peers := (peerId,
                       { peerId := peerId,
                         session := { state := .CONNECTING, webrtcbinValid := true,
                                      forwardedCandidates := [] },
                         streamPort := some port, udpSrcValid := true }) :: st.peers,
                     pipeline := { st.pipeline with streams := streams2 } })))) := by
  by_cases hdup : (st.peers.lookup peerId).isSome
  · left
    refine ⟨?_, ?_⟩
    · unfold WebRTCManager.addPeer
      rw [if_pos hdup]
    · unfold WebRTCManager.addPeerSync
      rw [if_pos hdup]
  · have hln : st.peers.lookup peerId = none := Option.not_isSome_iff_eq_none.mp hdup
    cases haddst : (Pipeline.addStream st.pipeline peerId (WebRTCManager.parseSource source)
        (WebRTCManager.parseStreamType source)).1 with
    | false =>
      have hst2 := addStream_false _ _ _ _ haddst
      have hpair : Pipeline.addStream st.pipeline peerId (WebRTCManager.parseSource source)
          (WebRTCManager.parseStreamType source) = (false, st.pipeline) :=
        Prod.ext haddst hst2
      left
      constructor
      · simp [WebRTCManager.addPeer, hln, hpair]
      · simp [WebRTCManager.addPeerSync, hln, hpair]
    | true =>
      obtain ⟨streams2, haf, hst2⟩ := addStream_true _ _ _ _ haddst
      have hpair : Pipeline.addStream st.pipeline peerId (WebRTCManager.parseSource source)
          (WebRTCManager.parseStreamType source) =
          (true, { st.pipeline with streams := streams2 }) := Prod.ext haddst hst2
      right
      refine ⟨hln, streams2, haf, ?_⟩
      cases hdyn : st.pipeline.dynamicStreams.lookup peerId with
      | none =>
        left
        have hcpc : WebRTCManager.createPeerConnection env
            { peers := (peerId, { peerId := peerId, session := WebRTCPeer.initSession,
                                  streamPort := none, udpSrcValid := false }) :: st.peers,
              pipeline := { st.pipeline with streams := streams2 } } peerId =
            (false, { peers := (peerId, { peerId := peerId, session := WebRTCPeer.initSession,
                                          streamPort := none, udpSrcValid := false }) :: st.peers,
                      pipeline := { st.pipeline with streams := streams2 } }) :=
          createPeerConnection_noRoute _ _ _ hdyn
        constructor
        · simp only [WebRTCManager.addPeer, hln, Option.isSome_none, Bool.false_eq_true,
            if_false, hpair, Bool.not_true, hcpc]
          rw [List.filter_cons_of_neg (by simp), filter_ne_of_lookup_none _ _ hln]
        · simp only [WebRTCManager.addPeerSync, hln, Option.isSome_none, Bool.false_eq_true,
            if_false, hpair, Bool.not_true, hcpc]
          rw [List.filter_cons_of_neg (by simp), filter_ne_of_lookup_none _ _ hln]
      | some port =>
        obtain ⟨c, hcpc, hcsucc⟩ := createPeerConnection_cons env st.peers
          { st.pipeline with streams := streams2 } peerId
          { peerId := peerId, session := WebRTCPeer.initSession,
            streamPort := none, udpSrcValid := false } hln port hdyn
        cases hu : env.udpSrcMade with
        | false =>
          left
          rw [hu] at hcpc
          simp only [Bool.false_and] at hcpc
          constructor
          · simp only [WebRTCManager.addPeer, hln, Option.isSome_none, Bool.false_eq_true,
              if_false, hpair, Bool.not_true, hcpc]
            rw [List.filter_cons_of_neg (by simp), filter_ne_of_lookup_none _ _ hln]
          · simp only [WebRTCManager.addPeerSync, hln, Option.isSome_none, Bool.false_eq_true,
              if_false, hpair, Bool.not_true, hcpc]
            rw [List.filter_cons_of_neg (by simp), filter_ne_of_lookup_none _ _ hln]
        | true =>
          cases hc : env.connectOk with
          | false =>
            left
            rw [hu, hc] at hcpc
            simp only [Bool.and_false] at hcpc
            constructor
            · simp only [WebRTCManager.addPeer, hln, Option.isSome_none, Bool.false_eq_true,
                if_false, hpair, Bool.not_true, hcpc]
              rw [List.filter_cons_of_neg (by simp), filter_ne_of_lookup_none _ _ hln]
            · simp only [WebRTCManager.addPeerSync, hln, Option.isSome_none, Bool.false_eq_true,
                if_false, hpair, Bool.not_true, hcpc]
              rw [List.filter_cons_of_neg (by simp), filter_ne_of_lookup_none _ _ hln]
          | true =>
            right
            rw [hu, hc] at hcpc
            simp only [Bool.and_self] at hcpc
            have hcval := hcsucc hu hc
            subst hcval
            refine ⟨port, rfl, rfl, rfl, ?_, ?_⟩
            · simp only [WebRTCManager.addPeer, hln, Option.isSome_none, Bool.false_eq_true,
                if_false, hpair, Bool.not_true, hcpc, lookup_cons_self, WebRTCPeer.createOffer]
              rw [setPeer_cons _ _ _ _ _ hln]
              simp [WebRTCPeer.initSession]
            · simp only [WebRTCManager.addPeerSync, hln, Option.isSome_none, Bool.false_eq_true,
                if_false, hpair, Bool.not_true, hcpc]
              simp [WebRTCPeer.initSession]

/-- C2 (amended): a failed `addPeer` restores the registry exactly — the
peer map, the dynamic-route table and the dynamic-port pool are unchanged,
and the stream-slot table too on states whose slots are clean in the way
the program keeps them (free slots cleared, no foreign active slot under
the joining id); when the failure is the duplicate rejection, the
pre-existing entry of course remains.  An entry for the peer exists after
the call only when the call succeeded, which requires a pre-existing
dynamic route for the peer — and nothing in this program ever creates one,
so whenever the dynamic-route table has no entry for the peer the add
fails. -/
theorem C2_addPeer_rollback (env : AddPeerEnv) (st : ManagerState) (peerId source : String) :
    ((WebRTCManager.addPeer env st peerId source).1 = false →
        (WebRTCManager.addPeer env st peerId source).2.peers = st.peers ∧
        (WebRTCManager.addPeer env st peerId source).2.pipeline.dynamicStreams
          = st.pipeline.dynamicStreams ∧
        (WebRTCManager.addPeer env st peerId source).2.pipeline.usedDynamicPorts
          = st.pipeline.usedDynamicPorts ∧
        ((∀ s ∈ st.pipeline.streams,
            (s.active = false → s.peerId = "") ∧ (s.active = true → s.peerId ≠ peerId)) →
          (WebRTCManager.addPeer env st peerId source).2 = st)) ∧
    (st.pipeline.dynamicStreams.lookup peerId = none →
        (WebRTCManager.addPeer env st peerId source).1 = false) ∧
    ((WebRTCManager.addPeer env st peerId source).1 = true →
        ∃ (port : Nat) (ctx : PeerContext),
          (WebRTCManager.addPeer env st peerId source).2.peers.lookup peerId = some ctx ∧
          ctx.streamPort = some port ∧
          ctx.udpSrcValid = true ∧
          ctx.session.state = .CONNECTING ∧
          ctx.session.webrtcbinValid = true ∧
          st.pipeline.dynamicStreams.lookup peerId = some port ∧
          env.udpSrcMade = true ∧ env.connectOk = true) := by
  rcases addPeer_cases env st peerId source with ⟨h1, _⟩ |
    ⟨hln, streams2, haf, ⟨h1, _⟩ | ⟨port, hdyn, hu, hc, h1, _⟩⟩
  · rw [h1]
    exact ⟨fun _ => ⟨rfl, rfl, rfl, fun _ => rfl⟩, fun _ => rfl, fun h => by simp at h⟩
  · rw [h1]
    refine ⟨fun _ => ⟨rfl, rfl, rfl, fun hclean => ?_⟩, fun _ => rfl, fun h => by simp at h⟩
    have hmap := activate_then_remove peerId (WebRTCManager.parseSource source)
      (WebRTCManager.parseStreamType source) st.pipeline.streams streams2 haf hclean
    show ({ peers := st.peers,
            pipeline := (Pipeline.removeStream
              { st.pipeline with streams := streams2 } peerId).2 } : ManagerState) = st
    unfold Pipeline.removeStream
    simp only
    rw [hmap]
  · rw [h1]
    refine ⟨fun h => by simp at h, fun h => by rw [h] at hdyn; exact absurd hdyn (by simp),
      fun _ => ⟨port, _, lookup_cons_self _ _ _, rfl, rfl, rfl, rfl, hdyn, hu, hc⟩⟩

/-- Witness for C2 at a concrete, program-like state (one clean free slot,
empty dynamic-route table, one leased dynamic port): the add of a fresh
peer fails at the dynamic-route read and the whole state is restored. -/
theorem C2_addPeer_rollback_witness :
    (WebRTCManager.addPeer { udpSrcMade := true, connectOk := true }
        { peers := [],
          pipeline := { dynamicStreams := [], usedDynamicPorts := [8000],
                        streams := [{ peerId := "", device := .RGB, type := .MAIN,
                                      port := 5000, active := false }] } }
        "p1" "RGB").1 = false ∧
    (WebRTCManager.addPeer { udpSrcMade := true, connectOk := true }
        { peers := [],
          pipeline := { dynamicStreams := [], usedDynamicPorts := [8000],
                        streams := [{ peerId := "", device := .RGB, type := .MAIN,
                                      port := 5000, active := false }] } }
        "p1" "RGB").2 =
      { peers := [],
        pipeline := { dynamicStreams := [], usedDynamicPorts := [8000],
                      streams := [{ peerId := "", device := .RGB, type := .MAIN,
                                    port := 5000, active := false }] } } := by
  have happ := C2_addPeer_rollback { udpSrcMade := true, connectOk := true }
    { peers := [],
      pipeline := { dynamicStreams := [], usedDynamicPorts := [8000],
                    streams := [{ peerId := "", device := .RGB, type := .MAIN,
                                  port := 5000, active := false }] } }
    "p1" "RGB"
  exact ⟨happ.2.1 rfl, (happ.1 (happ.2.1 rfl)).2.2.2 (by decide)⟩

namespace Signaling

/-- Counterexample to C1 as stated: serializing a `Register` message and
parsing the result fails (the parser accepts only the inbound action names,
not the outbound ones `serialize` emits), so the round trip does not yield
a message of the same variant. -/
theorem C1_roundtrip_counterexample :
    Signaling.MessageParser.parse (Signaling.MessageParser.serialize
      (.register { cameraId := "ITC100A-23081111", firmwareVersion := "1.0.0",
                   aiVersion := "0.1.0" })) = none := rfl

end Signaling

/-- Counterexample to C2 as stated: when `addPeer` fails with the duplicate
rejection, the pre-existing map entry for the peer id is still there, so
"afterwards no map entry for peerId exists" does not hold for this failure
(the registry is simply left unchanged). -/
theorem C2_addPeer_rollback_counterexample :
    (WebRTCManager.addPeer { udpSrcMade := true, connectOk := true }
        { peers := [("p1", { peerId := "p1", session := WebRTCPeer.initSession,
                             streamPort := none, udpSrcValid := false })],
          pipeline := { dynamicStreams := [], usedDynamicPorts := [] } }
        "p1" "RGB").1 = false ∧
    (WebRTCManager.addPeer { udpSrcMade := true, connectOk := true }
        { peers := [("p1", { peerId := "p1", session := WebRTCPeer.initSession,
                             streamPort := none, udpSrcValid := false })],
          pipeline := { dynamicStreams := [], usedDynamicPorts := [] } }
        "p1" "RGB").2.peers.lookup "p1" ≠ none := by
  exact ⟨rfl, by decide⟩

/-- C4: a duplicate `addPeer` (and `addPeerSync`) returns the rejection and
leaves the whole registry state — map, sessions, port pool — untouched;
and both a fresh add and a remove preserve key uniqueness, so peer ids stay
unique in the registry. -/
theorem C4_duplicate_rejection (env : AddPeerEnv) (st : ManagerState) (peerId source : String) :
    ((st.peers.lookup peerId).isSome →
      WebRTCManager.addPeer env st peerId source = (false, st) ∧
      WebRTCManager.addPeerSync env st peerId source = (false, st)) ∧
    ((st.peers.map Prod.fst).Nodup →
      ((WebRTCManager.addPeer env st peerId source).2.peers.map Prod.fst).Nodup ∧
      ((WebRTCManager.removePeer st peerId).2.peers.map Prod.fst).Nodup) := by
  constructor
  · intro hdup
    rcases addPeer_cases env st peerId source with ⟨h1, h2⟩ | ⟨hln, _⟩
    · exact ⟨h1, h2⟩
    · rw [hln] at hdup
      simp at hdup
  · intro hnd
    constructor
    · rcases addPeer_cases env st peerId source with ⟨h1, _⟩ |
        ⟨hln, streams2, haf, ⟨h1, _⟩ | ⟨port, _, _, _, h1, _⟩⟩
      · rw [h1]
        exact hnd
      · rw [h1]
        exact hnd
      · rw [h1]
        simp only [List.map_cons, List.nodup_cons]
        refine ⟨?_, hnd⟩
        intro hmem
        obtain ⟨kv, hkv, hfst⟩ := List.mem_map.mp hmem
        exact (lookup_eq_none_iff _ _).mp hln kv hkv hfst
    · unfold WebRTCManager.removePeer
      cases hlk : st.peers.lookup peerId with
      | none => exact hnd
      | some ctx =>
        simp only
        have hsub : (st.peers.filter (fun kv => kv.1 ≠ peerId)).map Prod.fst |>.Sublist
            (st.peers.map Prod.fst) :=
          (List.filter_sublist _).map Prod.fst
        exact hsub.nodup hnd

/-- Witness for C4 at a concrete registry holding `p1`: the duplicate add is
rejected with the state unchanged, and uniqueness of ids is preserved. -/
theorem C4_duplicate_rejection_witness :
    (WebRTCManager.addPeer { udpSrcMade := true, connectOk := true }
        { peers := [("p1", { peerId := "p1", session := WebRTCPeer.initSession,
                             streamPort := none, udpSrcValid := false })],
          pipeline := { dynamicStreams := [], usedDynamicPorts := [] } }
        "p1" "RGB" =
      (false,
        { peers := [("p1", { peerId := "p1", session := WebRTCPeer.initSession,
                             streamPort := none, udpSrcValid := false })],
          pipeline := { dynamicStreams := [], usedDynamicPorts := [] } }) ∧
     WebRTCManager.addPeerSync { udpSrcMade := true, connectOk := true }
        { peers := [("p1", { peerId := "p1", session := WebRTCPeer.initSession,
                             streamPort := none, udpSrcValid := false })],
          pipeline := { dynamicStreams := [], usedDynamicPorts := [] } }
        "p1" "RGB" =
      (false,
        { peers := [("p1", { peerId := "p1", session := WebRTCPeer.initSession,
                             streamPort := none, udpSrcValid := false })],
          pipeline := { dynamicStreams := [], usedDynamicPorts := [] } })) ∧
    (((WebRTCManager.addPeer { udpSrcMade := true, connectOk := true }
        { peers := [("p1", { peerId := "p1", session := WebRTCPeer.initSession,
                             streamPort := none, udpSrcValid := false })],
          pipeline := { dynamicStreams := [], usedDynamicPorts := [] } }
        "p2" "RGB").2.peers.map Prod.fst).Nodup) := by
  constructor
  · exact (C4_duplicate_rejection _ _ "p1" "RGB").1 (by decide)
  · exact ((C4_duplicate_rejection _ _ "p2" "RGB").2 (by decide)).1

/-- Counterexample to C9 as stated: even with both external wiring steps
succeeding and a free matching slot available, adding a fresh peer fails
and leaves the registry empty — the wiring step reads the dynamic-route
table, which nothing in this repository populates — so `addPeer` never
reports success for any session, with or without a failed offer. -/
theorem C9_offer_counterexample :
    (WebRTCManager.addPeer { udpSrcMade := true, connectOk := true }
        { peers := [],
          pipeline := { dynamicStreams := [], usedDynamicPorts := [],
                        streams := [{ peerId := "", device := .RGB, type := .MAIN,
                                      port := 5000, active := false }] } }
        "p1" "RGB").1 = false ∧
    (WebRTCManager.addPeer { udpSrcMade := true, connectOk := true }
        { peers := [],
          pipeline := { dynamicStreams := [], usedDynamicPorts := [],
                        streams := [{ peerId := "", device := .RGB, type := .MAIN,
                                      port := 5000, active := false }] } }
        "p1" "RGB").2.peers = [] := by
  exact ⟨rfl, rfl⟩

/-- C9 (amended): the initial-offer step is indeed log-only and invisible —
`createOffer` fails exactly when the media route handle is missing, never
mutates the session, and `addPeer` is extensionally the offer-free
`addPeerSync`, so the returned flag and registry state carry no information
about the offer step — but the outcome the claim asserts cannot occur in
this program: whenever the dynamic-route table has no entry for the peer
(always, since nothing writes that table) the add returns failure, so
`addPeer` never reports success for any session, offer failed or not. -/
theorem C9_offer_failure_invisible (env : AddPeerEnv) (st : ManagerState)
    (peerId source : String) :
    (∀ s : WebRTCPeer.Session, (WebRTCPeer.createOffer s).2 = s) ∧
    (∀ s : WebRTCPeer.Session, ((WebRTCPeer.createOffer s).1 = false ↔ s.webrtcbinValid = false)) ∧
    WebRTCManager.addPeer env st peerId source = WebRTCManager.addPeerSync env st peerId source ∧
    (st.pipeline.dynamicStreams.lookup peerId = none →
      (WebRTCManager.addPeer env st peerId source).1 = false) := by
  refine ⟨fun s => ?_, fun s => ?_, ?_, ?_⟩
  · unfold WebRTCPeer.createOffer
    split_ifs <;> rfl
  · unfold WebRTCPeer.createOffer
    cases hb : s.webrtcbinValid <;> simp
  · rcases addPeer_cases env st peerId source with ⟨h1, h2⟩ |
      ⟨_, _, _, ⟨h1, h2⟩ | ⟨_, _, _, _, h1, h2⟩⟩ <;> rw [h1, h2]
  · intro hdyn
    rcases addPeer_cases env st peerId source with ⟨h1, _⟩ |
      ⟨_, _, _, ⟨h1, _⟩ | ⟨port, hport, _, _, h1, _⟩⟩
    · rw [h1]
    · rw [h1]
    · rw [hdyn] at hport
      exact absurd hport (by simp)

/-- Witness for C9 at a concrete fresh add with an empty dynamic-route
table: the add reports failure. -/
theorem C9_offer_failure_invisible_witness :
    (WebRTCManager.addPeer { udpSrcMade := true, connectOk := true }
        { peers := [],
          pipeline := { dynamicStreams := [], usedDynamicPorts := [],
                        streams := [{ peerId := "", device := .THERMAL, type := .MAIN,
                                      port := 5002, active := false }] } }
        "p2" "Thermal").1 = false :=
  (C9_offer_failure_invisible { udpSrcMade := true, connectOk := true }
    { peers := [],
      pipeline := { dynamicStreams := [], usedDynamicPorts := [],
                    streams := [{ peerId := "", device := .THERMAL, type := .MAIN,
                                  port := 5002, active := false }] } }
    "p2" "Thermal").2.2.2 rfl

theorem removePeer_peers (st : ManagerState) (peerId : String) :
    (WebRTCManager.removePeer st peerId).2.peers =
      st.peers.filter (fun kv => kv.1 ≠ peerId) := by
  unfold WebRTCManager.removePeer
  cases hlk : st.peers.lookup peerId with
  | none =>
    exact (filter_ne_of_lookup_none _ _ hlk).symm
  | some ctx => rfl

theorem foldl_removePeer_empty :
    ∀ (ids : List String) (st : ManagerState),
      (∀ kv ∈ st.peers, kv.1 ∈ ids) →
      (ids.foldl (fun acc peerId => (WebRTCManager.removePeer acc peerId).2) st).peers = [] := by
  intro ids
  induction ids with
  | nil =>
    intro st h
    simp only [List.foldl_nil]
    exact List.eq_nil_iff_forall_not_mem.mpr fun kv hkv => List.not_mem_nil _ (h kv hkv)
  | cons peerId rest ih =>
    intro st h
    rw [List.foldl_cons]
    apply ih
    intro kv hkv
    rw [removePeer_peers] at hkv
    have hmem := List.mem_of_mem_filter hkv
    have hne : kv.1 ≠ peerId := by simpa using List.of_mem_filter hkv
    rcases List.mem_cons.mp (h kv hmem) with h1 | h2
    · exact absurd h1 hne
    · exact h2

theorem removeAllPeers_empty (st : ManagerState) :
    (WebRTCManager.removeAllPeers st).peers = [] := by
  unfold WebRTCManager.removeAllPeers
  apply foldl_removePeer_empty
  intro kv hkv
  exact List.mem_map_of_mem Prod.fst hkv

/-- C6: a transport disconnect puts the supervisor into `Connecting` and
removes every active peer session through `removeAll` (the peer count drops
to zero); the attempt counter is untouched, so after a disconnect observed
with a zero counter — as holds in `Connected` or any later state reached
through a successful connect, which resets the counter — the next reconnect
backoff is 1 time unit. -/
theorem C6_transport_disconnect (a : AppModel) :
    (Application.onWebSocketDisconnected a).state = .CONNECTING ∧
    WebRTCManager.getPeerCount (Application.onWebSocketDisconnected a).manager = 0 ∧
    (a.reconnectAttempts = 0 →
      backoffTime (Application.onWebSocketDisconnected a).reconnectAttempts = 1) ∧
    (∀ b : AppModel, (Application.onWebSocketConnected b).reconnectAttempts = 0) := by
  refine ⟨rfl, ?_, fun h => ?_, fun b => rfl⟩
  · unfold WebRTCManager.getPeerCount Application.onWebSocketDisconnected
    simp [removeAllPeers_empty]
  · unfold Application.onWebSocketDisconnected
    simp only
    rw [h]
    rfl

/-- Witness for C6 at a concrete supervisor holding one connected peer with
a zero attempt counter. -/
theorem C6_transport_disconnect_witness :
    (Application.onWebSocketDisconnected
        { state := .CONNECTED, reconnectAttempts := 0,
          manager := { peers := [("p1", { peerId := "p1", session := WebRTCPeer.initSession,
                                          streamPort := some 8000, udpSrcValid := true })],
                       pipeline := { dynamicStreams := [("p1", 8000)],
                                     usedDynamicPorts := [8000] } } }).state = .CONNECTING ∧
    WebRTCManager.getPeerCount (Application.onWebSocketDisconnected
        { state := .CONNECTED, reconnectAttempts := 0,
          manager := { peers := [("p1", { peerId := "p1", session := WebRTCPeer.initSession,
                                          streamPort := some 8000, udpSrcValid := true })],
                       pipeline := { dynamicStreams := [("p1", 8000)],
                                     usedDynamicPorts := [8000] } } }).manager = 0 ∧
    backoffTime (Application.onWebSocketDisconnected
        { state := .CONNECTED, reconnectAttempts := 0,
          manager := { peers := [("p1", { peerId := "p1", session := WebRTCPeer.initSession,
                                          streamPort := some 8000, udpSrcValid := true })],
                       pipeline := { dynamicStreams := [("p1", 8000)],
                                     usedDynamicPorts := [8000] } } }).reconnectAttempts = 1 := by
  obtain ⟨h1, h2, h3, _⟩ := C6_transport_disconnect
    { state := .CONNECTED, reconnectAttempts := 0,
      manager := { peers := [("p1", { peerId := "p1", session := WebRTCPeer.initSession,
                                      streamPort := some 8000, udpSrcValid := true })],
                   pipeline := { dynamicStreams := [("p1", 8000)],
                                 usedDynamicPorts := [8000] } } }
  exact ⟨h1, h2, h3 rfl⟩

theorem reachable_invariant (s : WebRTCPeer.Session) (h : WebRTCPeer.Reachable s) :
    s.state ≠ .FAILED ∧
    (s.state = .CLOSED → s.webrtcbinValid = false) ∧
    ((s.state = .CONNECTING ∨ s.state = .CONNECTED) → s.webrtcbinValid = true) := by
  induction h with
  | init =>
    exact ⟨by simp [WebRTCPeer.initSession], fun h => by simp [WebRTCPeer.initSession] at h,
      fun h => by simp [WebRTCPeer.initSession] at h⟩
  | connect s ok hs hnew ih =>
    unfold WebRTCPeer.connectToStream
    cases ok with
    | true => exact ⟨by simp, by simp, fun _ => rfl⟩
    | false =>
      refine ⟨by simpa using ih.1, fun hc => rfl, fun hc => ?_⟩
      simp only [] at hc
      rw [hnew] at hc
      rcases hc with hc | hc <;> exact absurd hc (by simp)
  | offer s hs ih =>
    unfold WebRTCPeer.createOffer
    split_ifs <;> exact ih
  | remote s type sdpOk hs ih =>
    unfold WebRTCPeer.setRemoteDescription
    split_ifs with h1 h2 h3
    · exact ih
    · exact ih
    · refine ⟨by simp, by simp, fun _ => ?_⟩
      simp only [Bool.not_eq_true] at h1
      simpa using h1
    · exact ih
  | ice s candidate mlineIndex hs ih =>
    unfold WebRTCPeer.addIceCandidate
    split_ifs <;> exact ih
  | close s hs ih =>
    unfold WebRTCPeer.disconnect
    split_ifs with h1
    · exact ⟨by rw [h1]; simp, fun _ => ih.2.1 h1, fun hc => by rw [h1] at hc; rcases hc with hc | hc <;> exact absurd hc (by simp)⟩
    · exact ⟨by simp, fun _ => rfl, fun hc => by rcases hc with hc | hc <;> exact absurd hc (by simp)⟩

/-- C8: for every reachable session in `Closed` (or the never-entered
`Failed`) state, `addIceCandidate` is a logged no-op — it returns false
without touching the session and without invoking any error handling — while
in `Connecting`/`Connected` the candidate is accepted and forwarded to the
media route. -/
theorem C8_ice_candidate_states (s : WebRTCPeer.Session) (h : WebRTCPeer.Reachable s)
    (candidate : String) (mlineIndex : Int) :
    ((s.state = .CLOSED ∨ s.state = .FAILED) →
      WebRTCPeer.addIceCandidate s candidate mlineIndex = (false, s)) ∧
    ((s.state = .CONNECTING ∨ s.state = .CONNECTED) →
      WebRTCPeer.addIceCandidate s candidate mlineIndex =
        (true, { s with forwardedCandidates :=
                   s.forwardedCandidates ++ [(candidate, mlineIndex)] })) := by
  obtain ⟨hfail, hclosed, hlive⟩ := reachable_invariant s h
  constructor
  · intro hc
    rcases hc with hc | hc
    · unfold WebRTCPeer.addIceCandidate
      rw [hclosed hc]
      rfl
    · exact absurd hc hfail
  · intro hc
    unfold WebRTCPeer.addIceCandidate
    rw [hlive hc]
    rfl

/-- Witness for C8: a session that connected and was then torn down ignores
a late candidate; a connecting session forwards it. -/
theorem C8_ice_candidate_states_witness :
    WebRTCPeer.addIceCandidate
        (WebRTCPeer.disconnect (WebRTCPeer.connectToStream WebRTCPeer.initSession true).2)
        "candidate:1" 0 =
      (false, WebRTCPeer.disconnect (WebRTCPeer.connectToStream WebRTCPeer.initSession true).2) ∧
    WebRTCPeer.addIceCandidate (WebRTCPeer.connectToStream WebRTCPeer.initSession true).2
        "candidate:1" 0 =
      (true, { (WebRTCPeer.connectToStream WebRTCPeer.initSession true).2 with
                 forwardedCandidates :=
                   (WebRTCPeer.connectToStream WebRTCPeer.initSession true).2.forwardedCandidates
                     ++ [("candidate:1", 0)] }) := by
  constructor
  · exact (C8_ice_candidate_states _
      (WebRTCPeer.Reachable.close _ (WebRTCPeer.Reachable.connect _ true
        WebRTCPeer.Reachable.init rfl)) "candidate:1" 0).1 (Or.inl rfl)
  · exact (C8_ice_candidate_states _
      (WebRTCPeer.Reachable.connect _ true WebRTCPeer.Reachable.init rfl)
      "candidate:1" 0).2 (Or.inl rfl)

namespace Signaling

/-- C1 (amended): the round trip `parse (serialize m)` holds exactly for the
two variants the parser accepts back: `Answer` (valid peer id, non-empty
JSON-object SDP) and `IceCandidate` (valid peer id, non-empty candidate,
non-negative line index) round-trip to an equal message; for every other
variant — `Register`, `CameraStatus`, `PeerJoined`, `PeerLeft`, `Offer`,
`Command` — the parse fails, because `serialize` emits the outbound action
names while `parse` dispatches only on the inbound ones
(`ROOM_PEER_JOINED`, `ROOM_PEER_LEFT`, `answer`, `candidate`,
`send_camera`). -/
theorem C1_roundtrip_amended :
    (∀ m : AnswerMessage, m.peerId ≠ "" → m.sdp.isObj = true → m.sdp.isEmpty = false →
      MessageParser.parse (MessageParser.serialize (.answer m)) = some (.answer m)) ∧
    (∀ m : IceCandidateMessage, m.peerId ≠ "" → m.candidate ≠ "" → 0 ≤ m.mlineIndex →
      MessageParser.parse (MessageParser.serialize (.iceCandidate m)) =
        some (.iceCandidate m)) ∧
    (∀ m : RegisterMessage,
      MessageParser.parse (MessageParser.serialize (.register m)) = none) ∧
    (∀ m : CameraStatusMessage,
      MessageParser.parse (MessageParser.serialize (.cameraStatus m)) = none) ∧
    (∀ m : PeerJoinedMessage,
      MessageParser.parse (MessageParser.serialize (.peerJoined m)) = none) ∧
    (∀ m : PeerLeftMessage,
      MessageParser.parse (MessageParser.serialize (.peerLeft m)) = none) ∧
    (∀ m : OfferMessage,
      MessageParser.parse (MessageParser.serialize (.offer m)) = none) ∧
    (∀ m : CommandMessage,
      MessageParser.parse (MessageParser.serialize (.command m)) = none) := by
  refine ⟨?_, ?_, fun m => rfl, fun m => rfl, fun m => rfl, fun m => rfl, fun m => rfl,
    fun m => rfl⟩
  · intro m h1 h2 h3
    obtain ⟨pid, sdp⟩ := m
    simp only at h1 h2 h3
    cases sdp with
    | obj fields =>
      cases fields with
      | nil => simp [Json.isEmpty] at h3
      | cons f fs =>
        have hred : MessageParser.parse (MessageParser.serialize
            (.answer ⟨pid, Json.obj (f :: fs)⟩)) =
            Option.map Message.answer
              (if pid = "" then none
               else some (⟨pid, Json.obj (f :: fs)⟩ : AnswerMessage)) := rfl
        rw [hred, if_neg h1]
        rfl
    | null => simp [Json.isObj] at h2
    | bool b => simp [Json.isObj] at h2
    | num n => simp [Json.isObj] at h2
    | str s => simp [Json.isObj] at h2
    | arr elems => simp [Json.isObj] at h2
  · intro m h1 h2 h3
    obtain ⟨pid, cand, mline⟩ := m
    simp only at h1 h2 h3
    have hred : MessageParser.parse (MessageParser.serialize
        (.iceCandidate ⟨pid, cand, mline⟩)) =
        Option.map Message.iceCandidate
          (if pid = "" || cand = "" || mline < 0 then none
           else some (⟨pid, cand, mline⟩ : IceCandidateMessage)) := rfl
    rw [hred, if_neg ?_]
    · rfl
    · simp only [decide_eq_true_eq, Bool.or_eq_true, not_or]
      exact ⟨⟨h1, h2⟩, by omega⟩

/-- Witness for C1 at concrete messages: the answer and ICE-candidate round
trips preserve the message exactly. -/
theorem C1_roundtrip_amended_witness :
    MessageParser.parse (MessageParser.serialize
      (.answer { peerId := "p1",
                 sdp := Json.obj [("sdp", Json.str "v=0"), ("type", Json.str "answer")] })) =
      some (.answer { peerId := "p1",
                      sdp := Json.obj [("sdp", Json.str "v=0"), ("type", Json.str "answer")] }) ∧
    MessageParser.parse (MessageParser.serialize
      (.iceCandidate { peerId := "p1", candidate := "candidate:1", mlineIndex := 0 })) =
      some (.iceCandidate { peerId := "p1", candidate := "candidate:1", mlineIndex := 0 }) :=
  ⟨C1_roundtrip_amended.1 _ (by decide) rfl rfl,
   C1_roundtrip_amended.2.1 _ (by decide) (by decide) (by decide)⟩

end Signaling

namespace Signaling

/-- No JSON value starts with the letter `v`: it opens none of the literal,
number, string, array or object alternatives, so the value parser rejects. -/
theorem parseJsonVal_v_none (fuel : Nat) (rest : List Char) :
    parseJsonVal (fuel + 1) ('v' :: rest) = none := rfl

/-- A text beginning with the character `v` — as every real SDP document
does, starting with its `v=0` version line — is not a parseable JSON
document. -/
theorem jsonParse_v_start (s : String) (hv : s.data.head? = some 'v') :
    jsonParse s = none := by
  obtain ⟨rest, hdata⟩ : ∃ rest, s.data = 'v' :: rest := by
    cases hd : s.data with
    | nil => rw [hd] at hv; simp at hv
    | cons c cs =>
      rw [hd] at hv
      simp at hv
      exact ⟨cs, by rw [hv]⟩
  unfold jsonParse
  rw [hdata, parseJsonVal_v_none]

/-- C7 (amended): for every SDP text beginning with the character `v` — as
every real SDP document does, its first line being `v=0` — the text is not
a parseable JSON document, so the answer decoder normalizes the
nested-object wire form and the plain-string wire form to the same
canonical SDP object, and the handler extraction recovers the same SDP
text from it.  (When the string payload happens to parse as JSON the two
forms genuinely normalize differently; see the counterexample.) -/
theorem C7_sdp_normalization_amended (pid sdpText : String) (hpid : pid ≠ "")
    (hv : sdpText.data.head? = some 'v') :
    MessageParser.parseAnswer (Json.objOf [("action", Json.str "answer"),
        ("message", Json.objOf [("peer_id", Json.str pid),
          ("sdp", Json.objOf [("type", Json.str "answer"), ("sdp", Json.str sdpText)])])]) =
      some { peerId := pid,
             sdp := Json.obj [("sdp", Json.str sdpText), ("type", Json.str "answer")] } ∧
    MessageParser.parseAnswer (Json.objOf [("action", Json.str "answer"),
        ("message", Json.objOf [("peer_id", Json.str pid), ("sdp", Json.str sdpText)])]) =
      some { peerId := pid,
             sdp := Json.obj [("sdp", Json.str sdpText), ("type", Json.str "answer")] } ∧
    MessageHandler.extractSdp
        (Json.obj [("sdp", Json.str sdpText), ("type", Json.str "answer")]) = sdpText := by
  have hT : jsonParse sdpText = none := jsonParse_v_start sdpText hv
  refine ⟨?_, ?_, rfl⟩
  · have hred : MessageParser.parseAnswer (Json.objOf [("action", Json.str "answer"),
        ("message", Json.objOf [("peer_id", Json.str pid),
          ("sdp", Json.objOf [("type", Json.str "answer"), ("sdp", Json.str sdpText)])])]) =
        if pid = "" then none
        else some { peerId := pid,
                    sdp := Json.obj [("sdp", Json.str sdpText), ("type", Json.str "answer")] } := rfl
    rw [hred, if_neg hpid]
  · have hred : MessageParser.parseAnswer (Json.objOf [("action", Json.str "answer"),
        ("message", Json.objOf [("peer_id", Json.str pid), ("sdp", Json.str sdpText)])]) =
        (if pid = "" then none
         else if (match jsonParse sdpText with
                  | some v => v
                  | none => Json.obj [("sdp", Json.str sdpText),
                                      ("type", Json.str "answer")]).isEmpty
         then none
         else some { peerId := pid,
                     sdp := match jsonParse sdpText with
                            | some v => v
                            | none => Json.obj [("sdp", Json.str sdpText),
                                                ("type", Json.str "answer")] }) := rfl
    rw [hred, if_neg hpid, hT]
    rfl

end Signaling

namespace Signaling

/-- Counterexample to C7 as stated: when the SDP text is itself a valid JSON
document — here the text `0` — the two wire forms do not normalize to the
same canonical field: the object form keeps the SDP object while the string
form is re-parsed into the JSON number 0, from which the handler extracts
no SDP text at all. -/
theorem C7_sdp_normalization_counterexample :
    ((MessageParser.parseAnswer (Json.objOf [("action", Json.str "answer"),
        ("message", Json.objOf [("peer_id", Json.str "p1"),
          ("sdp", Json.objOf [("type", Json.str "answer"),
                              ("sdp", Json.str "0")])])])).map AnswerMessage.sdp ≠
      (MessageParser.parseAnswer (Json.objOf [("action", Json.str "answer"),
        ("message", Json.objOf [("peer_id", Json.str "p1"),
          ("sdp", Json.str "0")])])).map AnswerMessage.sdp) ∧
    (MessageParser.parseAnswer (Json.objOf [("action", Json.str "answer"),
        ("message", Json.objOf [("peer_id", Json.str "p1"),
          ("sdp", Json.str "0")])])).map
        (fun m => MessageHandler.extractSdp m.sdp) = some "" := by
  constructor
  · intro h
    have h1 : (MessageParser.parseAnswer (Json.objOf [("action", Json.str "answer"),
        ("message", Json.objOf [("peer_id", Json.str "p1"),
          ("sdp", Json.objOf [("type", Json.str "answer"),
                              ("sdp", Json.str "0")])])])).map AnswerMessage.sdp =
        some (Json.obj [("sdp", Json.str "0"), ("type", Json.str "answer")]) := rfl
    have h2 : (MessageParser.parseAnswer (Json.objOf [("action", Json.str "answer"),
        ("message", Json.objOf [("peer_id", Json.str "p1"),
          ("sdp", Json.str "0")])])).map AnswerMessage.sdp = some (Json.num 0) := rfl
    rw [h1, h2] at h
    exact Json.noConfusion (Option.some.inj h)
  · rfl

/-- Witness for C7 at a concrete answer: the SDP text `v=0` starts with
`v`, and both wire forms decode to the same canonical object carrying
it. -/
theorem C7_sdp_normalization_witness :
    MessageParser.parseAnswer (Json.objOf [("action", Json.str "answer"),
        ("message", Json.objOf [("peer_id", Json.str "p1"),
          ("sdp", Json.objOf [("type", Json.str "answer"), ("sdp", Json.str "v=0")])])]) =
      some { peerId := "p1",
             sdp := Json.obj [("sdp", Json.str "v=0"), ("type", Json.str "answer")] } ∧
    MessageParser.parseAnswer (Json.objOf [("action", Json.str "answer"),
        ("message", Json.objOf [("peer_id", Json.str "p1"), ("sdp", Json.str "v=0")])]) =
      some { peerId := "p1",
             sdp := Json.obj [("sdp", Json.str "v=0"), ("type", Json.str "answer")] } ∧
    MessageHandler.extractSdp
        (Json.obj [("sdp", Json.str "v=0"), ("type", Json.str "answer")]) = "v=0" :=
  C7_sdp_normalization_amended "p1" "v=0" (by decide) rfl

end Signaling
